import Mathlib

/-!
Shallow embedding of the configuration resolution engine of `par_cc_usage`
(`src/par_cc_usage/config.py` and `src/par_cc_usage/enums.py`).

Python dictionaries holding parsed YAML values are embedded as association
lists `List (String × Value)`; Python `os.environ` is an explicit lookup
function `String → Option String`; filesystem interaction is abstracted into
explicit input records.  Functions named after the source keep the source's
semantics; definitions whose Python source is not part of the repository
snapshot (`utils.expand_path`, the XDG helpers of `xdg_dirs.py`) are modelled
from the specification and marked as such in their doc comments.
-/

set_option maxHeartbeats 1000000
set_option maxRecDepth 4096

instance {ε α : Type} [DecidableEq ε] [DecidableEq α] :
    DecidableEq (Except ε α)
  | .error e, .error f =>
    if h : e = f then .isTrue (h ▸ rfl)
    else .isFalse (fun hc => h (Except.error.inj hc))
  | .error _, .ok _ => .isFalse (fun hc => Except.noConfusion hc)
  | .ok _, .error _ => .isFalse (fun hc => Except.noConfusion hc)
  | .ok a, .ok b =>
    if h : a = b then .isTrue (h ▸ rfl)
    else .isFalse (fun hc => h (Except.ok.inj hc))

/-- Embedding of `enums.TimeFormat`: time format options for display. -/
inductive TimeFormat where
  | twelveHour
  | twentyFourHour
deriving DecidableEq, Repr

/-- String value of a `TimeFormat` member (`"12h"` / `"24h"`). -/
def TimeFormat.value : TimeFormat → String
  | .twelveHour => "12h"
  | .twentyFourHour => "24h"

/-- Embedding of `enums.DisplayMode`: display mode options for monitor. -/
inductive DisplayMode where
  | normal
  | compact
deriving DecidableEq, Repr

/-- String value of a `DisplayMode` member. -/
def DisplayMode.value : DisplayMode → String
  | .normal => "normal"
  | .compact => "compact"

/-- Embedding of `enums.ThemeType`: theme options for display styling. -/
inductive ThemeType where
  | defaultTheme
  | dark
  | light
  | accessibility
  | minimal
deriving DecidableEq, Repr

/-- String value of a `ThemeType` member. -/
def ThemeType.value : ThemeType → String
  | .defaultTheme => "default"
  | .dark => "dark"
  | .light => "light"
  | .accessibility => "accessibility"
  | .minimal => "minimal"

/-- Untyped values of a parsed YAML mapping (`RawConfigMap` entries); also
covers the values produced by the env-override parsers (`Path` objects are
`path`, parsed enum members are stored through their string value since the
Python enums are `str` subclasses). -/
inductive Value where
  | s (str : String)
  | i (int : Int)
  | b (bool : Bool)
  | null
  | path (str : String)
  | list (elems : List Value)
  | map (entries : List (String × Value))

/-- Lookup of a key in an embedded Python dict (association list). -/
def lookupKey (m : List (String × Value)) (k : String) : Option Value :=
  match m with
  | [] => none
  | (k', v) :: rest => if k' = k then some v else lookupKey rest k

/-- Embedding of `d[k] = v` on a Python dict: replace the first binding of
`k` if present, otherwise append (insertion order preserved). -/
def setKey (m : List (String × Value)) (k : String) (v : Value) :
    List (String × Value) :=
  match m with
  | [] => [(k, v)]
  | (k', v') :: rest =>
    if k' = k then (k', v) :: rest else (k', v') :: setKey rest k v

/-- Characters stripped by Python `int(str)` around the numeric core
(ASCII whitespace; the full Python set also has some unicode spaces that are
irrelevant here). -/
def isPySpace (c : Char) : Bool :=
  c = ' ' || c = '\t' || c = '\n' || c = '\r' || c = '\x0b' || c = '\x0c'

/-- Numeric value of a decimal digit character. -/
def digitVal (c : Char) : Nat := c.toNat - 48

/-- Digit-string tail accepted by Python `int`: digits with single
underscores allowed only between digits (entered after an initial digit). -/
def parseDigits : List Char → Nat → Option Nat
  | [], acc => some acc
  | c :: rest, acc =>
    if c = '_' then
      match rest with
      | d :: rest' =>
        if d.isDigit then parseDigits rest' (10 * acc + digitVal d) else none
      | [] => none
    else if c.isDigit then parseDigits rest (10 * acc + digitVal c) else none

/-- Leading/trailing whitespace stripped, as Python `int` does before
parsing. -/
def stripPySpaces (cs : List Char) : List Char :=
  ((cs.dropWhile isPySpace).reverse.dropWhile isPySpace).reverse

/-- Sign handling of Python `int`: an optional single leading `+`/`-`. -/
def splitSign (cs : List Char) : Bool × List Char :=
  match cs with
  | '-' :: rest => (true, rest)
  | '+' :: rest => (false, rest)
  | _ => (false, cs)

/-- The numeric core of Python `int(str)` after stripping and sign
handling: a leading digit followed by a digit/underscore tail. -/
def intCore (neg : Bool) : List Char → Option Int
  | [] => none
  | d :: rest =>
    if d.isDigit then
      match parseDigits rest (digitVal d) with
      | some n => some (if neg then -(n : Int) else (n : Int))
      | none => none
    else none

/-- Embedding of Python `int(value)` on strings: `some n` on success,
`none` when `ValueError` would be raised. -/
def pythonStrToInt (str : String) : Option Int :=
  intCore (splitSign (stripPySpaces str.data)).1
    (splitSign (stripPySpaces str.data)).2

/-- Embedding of `_parse_int_value`: parse integer with error handling. -/
def parseIntValue (value : String) : Option Int :=
  pythonStrToInt value

/-- ASCII lower-casing of one character (the fragment of Python
`str.lower` relevant to the recognized tokens). -/
def asciiLowerChar (c : Char) : Char :=
  match List.lookup c
    [('A', 'a'), ('B', 'b'), ('C', 'c'), ('D', 'd'), ('E', 'e'), ('F', 'f'),
     ('G', 'g'), ('H', 'h'), ('I', 'i'), ('J', 'j'), ('K', 'k'), ('L', 'l'),
     ('M', 'm'), ('N', 'n'), ('O', 'o'), ('P', 'p'), ('Q', 'q'), ('R', 'r'),
     ('S', 's'), ('T', 't'), ('U', 'u'), ('V', 'v'), ('W', 'w'), ('X', 'x'),
     ('Y', 'y'), ('Z', 'z')] with
  | some l => l
  | none => c

/-- Embedding of Python `str.lower()` (ASCII fragment). -/
def strLower (s : String) : String :=
  String.mk (s.data.map asciiLowerChar)

/-- Embedding of `_parse_bool_value`: `value.lower() in ("true", "1",
"yes", "on")`. -/
def parseBoolValue (value : String) : Bool :=
  ["true", "1", "yes", "on"].contains (strLower value)

/-- Embedding of `_parse_time_format_value`: `TimeFormat(value)` with
`ValueError` turned into `None`. -/
def parseTimeFormatValue (value : String) : Option TimeFormat :=
  if value = "12h" then some .twelveHour
  else if value = "24h" then some .twentyFourHour
  else none

/-- Embedding of `_parse_display_mode_value`. -/
def parseDisplayModeValue (value : String) : Option DisplayMode :=
  if value = "normal" then some .normal
  else if value = "compact" then some .compact
  else none

/-- Embedding of Python `str.split(",")` over the character list. -/
def splitComma : List Char → List (List Char)
  | [] => [[]]
  | c :: rest =>
    if c = ',' then [] :: splitComma rest
    else
      match splitComma rest with
      | g :: gs => (c :: g) :: gs
      | [] => [[c]]

/-- Embedding of `_parse_prefix_list_value` (also the comma-splitting of
`_apply_claude_config_dir_override`): split on commas, strip each segment
(Python `str.strip()`, ASCII whitespace), drop empty segments. -/
def splitTrim (value : String) : List String :=
  ((((splitComma value.data).map stripPySpaces).filter
    (fun p => p ≠ [])).map String.mk)

/-- Embedding of `DisplayConfig` (schema of the nested `display` section). -/
structure DisplayConfig where
  show_progress_bars : Bool
  show_active_sessions : Bool
  update_in_place : Bool
  refresh_interval : Int
  time_format : TimeFormat
  project_name_prefixes : List String
  aggregate_by_project : Bool
  show_tool_usage : Bool
  display_mode : DisplayMode
  show_pricing : Bool
  theme : ThemeType
deriving DecidableEq, Repr

/-- Schema defaults of `DisplayConfig`. -/
def defaultDisplayConfig : DisplayConfig :=
  { show_progress_bars := true
    show_active_sessions := false
    update_in_place := true
    refresh_interval := 1
    time_format := .twentyFourHour
    project_name_prefixes := ["-Users-", "-home-"]
    aggregate_by_project := true
    show_tool_usage := false
    display_mode := .normal
    show_pricing := false
    theme := .defaultTheme }

/-- Embedding of `NotificationConfig` (schema of the nested `notifications`
section). -/
structure NotificationConfig where
  discord_webhook_url : Option String
  slack_webhook_url : Option String
  notify_on_block_completion : Bool
  cooldown_minutes : Int
deriving DecidableEq, Repr

/-- Schema defaults of `NotificationConfig`. -/
def defaultNotificationConfig : NotificationConfig :=
  { discord_webhook_url := none
    slack_webhook_url := none
    notify_on_block_completion := true
    cooldown_minutes := 5 }

/-- Embedding of the top-level `Config` pydantic model (paths are carried as
strings). -/
structure Config where
  projects_dir : String
  projects_dirs : Option (List String)
  polling_interval : Int
  timezone : String
  token_limit : Option Int
  cache_dir : String
  disable_cache : Bool
  display : DisplayConfig
  notifications : NotificationConfig
  recent_activity_window_hours : Int
deriving DecidableEq, Repr

/-- Modelled from the spec: `xdg_dirs.get_cache_dir` (missing from the
snapshot) returns the per-user cache directory for the application. -/
def get_cache_dir (home : String) : String :=
  home ++ "/.cache/par_cc_usage"

/-- Schema default of `Config.projects_dir`: `Path.home() / ".claude" /
"projects"`. -/
def defaultProjectsDir (home : String) : String :=
  home ++ "/.claude/projects"

/-- `Config` with every field at its schema default. -/
def defaultConfig (home : String) : Config :=
  { projects_dir := defaultProjectsDir home
    projects_dirs := none
    polling_interval := 5
    timezone := "America/Los_Angeles"
    token_limit := none
    cache_dir := get_cache_dir home
    disable_cache := false
    display := defaultDisplayConfig
    notifications := defaultNotificationConfig
    recent_activity_window_hours := 5 }

/-! ## Pydantic-style field coercion

`Config(**config_dict)` validates the merged mapping with pydantic's lax
mode.  Each field type gets one coercion function returning `Except` with a
message; messages are prefixed by the offending field's name at the
`getField`/`getSection` level, mirroring pydantic's error reporting. -/

/-- Lax coercion into a `Path` field: accepts `Path` objects and strings. -/
def coercePath : Value → Except String String
  | .path p => .ok p
  | .s str => .ok str
  | _ => .error "invalid path"

/-- Lax coercion into an `int` field: accepts ints and int-like strings
(booleans are rejected). -/
def coerceInt : Value → Except String Int
  | .i n => .ok n
  | .s str =>
    match pythonStrToInt str with
    | some n => .ok n
    | none => .error "invalid int"
  | _ => .error "invalid int"

/-- Lax coercion into an `int | None` field. -/
def coerceOptInt : Value → Except String (Option Int)
  | .null => .ok none
  | v => (coerceInt v).map some

/-- Lax coercion into a `bool` field: accepts booleans, 0/1 ints and the
pydantic boolean string tokens (case-insensitive). -/
def coerceBool : Value → Except String Bool
  | .b bv => .ok bv
  | .i n => if n = 0 then .ok false else if n = 1 then .ok true else .error "invalid bool"
  | .s str =>
    if ["true", "t", "yes", "y", "on", "1"].contains (strLower str) then .ok true
    else if ["false", "f", "no", "n", "off", "0"].contains (strLower str) then .ok false
    else .error "invalid bool"
  | _ => .error "invalid bool"

/-- Lax coercion into a `str` field. -/
def coerceStr : Value → Except String String
  | .s str => .ok str
  | _ => .error "invalid str"

/-- Lax coercion into a `str | None` field. -/
def coerceOptStr : Value → Except String (Option String)
  | .null => .ok none
  | .s str => .ok (some str)
  | _ => .error "invalid str"

/-- Lax coercion into a `list[str]` field. -/
def coerceStrList : Value → Except String (List String)
  | .list elems =>
    let rec go : List Value → Except String (List String)
      | [] => .ok []
      | .s str :: rest => (go rest).map (str :: ·)
      | _ :: _ => .error "invalid str list"
    go elems
  | _ => .error "invalid str list"

/-- Lax coercion of one element of a `list[Path]` field. -/
def coercePathElem : Value → Except String String
  | .path p => .ok p
  | .s str => .ok str
  | _ => .error "invalid path list"

/-- Lax coercion into a `list[Path] | None` field. -/
def coerceOptPathList : Value → Except String (Option (List String))
  | .null => .ok none
  | .list elems =>
    let rec go : List Value → Except String (List String)
      | [] => .ok []
      | v :: rest =>
        match coercePathElem v with
        | .ok p => (go rest).map (p :: ·)
        | .error e => .error e
    (go elems).map some
  | _ => .error "invalid path list"

/-- Coercion into the closed `TimeFormat` enum (a `str` enum, so the member
strings are accepted). -/
def coerceTimeFormat : Value → Except String TimeFormat
  | .s "12h" => .ok .twelveHour
  | .s "24h" => .ok .twentyFourHour
  | _ => .error "invalid time format"

/-- Coercion into the closed `DisplayMode` enum. -/
def coerceDisplayMode : Value → Except String DisplayMode
  | .s "normal" => .ok .normal
  | .s "compact" => .ok .compact
  | _ => .error "invalid display mode"

/-- Coercion into the closed `ThemeType` enum. -/
def coerceTheme : Value → Except String ThemeType
  | .s "default" => .ok .defaultTheme
  | .s "dark" => .ok .dark
  | .s "light" => .ok .light
  | .s "accessibility" => .ok .accessibility
  | .s "minimal" => .ok .minimal
  | _ => .error "invalid theme"

/-- Prefix a coercion error with the offending field's name. -/
def mapErrPrefix (k : String) : Except String α → Except String α
  | .ok a => .ok a
  | .error e => .error (k ++ ": " ++ e)

/-- One pydantic field: take the schema default when the key is missing,
otherwise coerce the present value, prefixing errors with the field name. -/
def getField (m : List (String × Value)) (k : String)
    (coerce : Value → Except String α) (dflt : α) : Except String α :=
  match lookupKey m k with
  | none => .ok dflt
  | some v => mapErrPrefix k (coerce v)

/-- Prefix the errors of a nested-section validation with the section name. -/
def mapErr (k : String) : Except String α → Except String α
  | .ok a => .ok a
  | .error e => .error (k ++ "." ++ e)

/-- One nested pydantic model field: default when missing, validate the
sub-mapping when present, error out on a non-mapping value. -/
def getSection (m : List (String × Value)) (k : String)
    (valSec : List (String × Value) → Except String α) (dflt : α) :
    Except String α :=
  match lookupKey m k with
  | none => .ok dflt
  | some (.map sm) => mapErr k (valSec sm)
  | some _ => .error (k ++ ": invalid section")

/-- Validation of the `display` sub-mapping against `DisplayConfig`
(declaration order of the pydantic model). -/
def validateDisplayMap (m : List (String × Value)) :
    Except String DisplayConfig := do
  let show_progress_bars ← getField m "show_progress_bars" coerceBool true
  let show_active_sessions ← getField m "show_active_sessions" coerceBool false
  let update_in_place ← getField m "update_in_place" coerceBool true
  let refresh_interval ← getField m "refresh_interval" coerceInt 1
  let time_format ← getField m "time_format" coerceTimeFormat .twentyFourHour
  let project_name_prefixes ←
    getField m "project_name_prefixes" coerceStrList ["-Users-", "-home-"]
  let aggregate_by_project ← getField m "aggregate_by_project" coerceBool true
  let show_tool_usage ← getField m "show_tool_usage" coerceBool false
  let display_mode ← getField m "display_mode" coerceDisplayMode .normal
  let show_pricing ← getField m "show_pricing" coerceBool false
  let theme ← getField m "theme" coerceTheme .defaultTheme
  pure ⟨show_progress_bars, show_active_sessions, update_in_place,
    refresh_interval, time_format, project_name_prefixes,
    aggregate_by_project, show_tool_usage, display_mode, show_pricing, theme⟩

/-- Validation of the `notifications` sub-mapping against
`NotificationConfig`. -/
def validateNotifMap (m : List (String × Value)) :
    Except String NotificationConfig := do
  let discord_webhook_url ← getField m "discord_webhook_url" coerceOptStr none
  let slack_webhook_url ← getField m "slack_webhook_url" coerceOptStr none
  let notify_on_block_completion ←
    getField m "notify_on_block_completion" coerceBool true
  let cooldown_minutes ← getField m "cooldown_minutes" coerceInt 5
  pure ⟨discord_webhook_url, slack_webhook_url, notify_on_block_completion,
    cooldown_minutes⟩

/-- Embedding of `Config(**config_dict)`: pydantic validation of the fully
merged mapping.  Unknown keys are never looked up, hence ignored; missing
keys take schema defaults; a value that fails its field's coercion is a
hard error naming the field. -/
def validateConfig (home : String) (m : List (String × Value)) :
    Except String Config := do
  let projects_dir ← getField m "projects_dir" coercePath (defaultProjectsDir home)
  let projects_dirs ← getField m "projects_dirs" coerceOptPathList none
  let polling_interval ← getField m "polling_interval" coerceInt 5
  let timezone ← getField m "timezone" coerceStr "America/Los_Angeles"
  let token_limit ← getField m "token_limit" coerceOptInt none
  let cache_dir ← getField m "cache_dir" coercePath (get_cache_dir home)
  let disable_cache ← getField m "disable_cache" coerceBool false
  let display ← getSection m "display" validateDisplayMap defaultDisplayConfig
  let notifications ←
    getSection m "notifications" validateNotifMap defaultNotificationConfig
  let recent_activity_window_hours ←
    getField m "recent_activity_window_hours" coerceInt 5
  pure ⟨projects_dir, projects_dirs, polling_interval, timezone, token_limit,
    cache_dir, disable_cache, display, notifications,
    recent_activity_window_hours⟩

/-! ## Path expansion and environment access -/

/-- Truthiness test of `if value := os.getenv(var)`: the variable must be
set to a non-empty string. -/
def envTruthy (env : String → Option String) (var : String) : Option String :=
  match env var with
  | some str => if str = "" then none else some str
  | none => none

/-- Variable-name characters recognized inside `$NAME` references. -/
def isVarChar (c : Char) : Bool :=
  c.isAlphanum || c = '_'

/-- Modelled from the spec: the `$NAME` expansion half of
`utils.expand_path` (the module is missing from the snapshot).  Each
embedded `$NAME` reference is replaced by the variable's value when set and
kept verbatim when unset, as `os.path.expandvars` does.  The `fuel`
argument makes the recursion structural; it is initialized to the input
length, which always suffices. -/
def expandVarsFuel (env : String → Option String) :
    Nat → List Char → List Char
  | 0, _ => []
  | _ + 1, [] => []
  | fuel + 1, c :: rest =>
    if c = '$' then
      let name := rest.takeWhile isVarChar
      if name.isEmpty then c :: expandVarsFuel env fuel rest
      else
        match env (String.mk name) with
        | some v => v.data ++ expandVarsFuel env fuel (rest.dropWhile isVarChar)
        | none => c :: (name ++ expandVarsFuel env fuel (rest.dropWhile isVarChar))
    else c :: expandVarsFuel env fuel rest

/-- `$NAME` expansion of a character list (see `expandVarsFuel`). -/
def expandVarsChars (env : String → Option String) (cs : List Char) :
    List Char :=
  expandVarsFuel env cs.length cs

/-- Modelled from the spec: the leading home-alias expansion half of
`utils.expand_path`; a leading `~` alone or `~/` is replaced by the home
directory, anything else passes through unchanged. -/
def expandUser (home : String) (str : String) : String :=
  match str.data with
  | ['~'] => home
  | '~' :: '/' :: rest => home ++ String.mk ('/' :: rest)
  | _ => str

/-- Modelled from the spec: `utils.expand_path` — expand `$NAME` references
and the leading home alias of a path-valued string; existence is not
required and relative paths pass through unchanged. -/
def expand_path (env : String → Option String) (home : String)
    (str : String) : String :=
  expandUser home (String.mk (expandVarsChars env str.data))

/-! ## Environment override application -/

/-- Embedding of `_parse_env_value`: dispatch on the config key's semantic
type; `none` is Python `None` (a parse failure dropping the override). -/
def parseEnvValue (env : String → Option String) (home : String)
    (config_key value : String) : Option Value :=
  if ["polling_interval", "token_limit", "refresh_interval",
      "cooldown_minutes", "recent_activity_window_hours"].contains config_key then
    (parseIntValue value).map .i
  else if ["projects_dir", "cache_dir"].contains config_key then
    some (.path (expand_path env home value))
  else if ["disable_cache", "notify_on_block_completion", "show_progress_bars",
      "show_active_sessions", "update_in_place", "aggregate_by_project",
      "show_tool_usage", "show_pricing"].contains config_key then
    some (.b (parseBoolValue value))
  else if config_key = "time_format" then
    (parseTimeFormatValue value).map (fun tf => .s tf.value)
  else if config_key = "display_mode" then
    (parseDisplayModeValue value).map (fun dm => .s dm.value)
  else if config_key = "project_name_prefixes" then
    some (.list ((splitTrim value).map .s))
  else
    some (.s value)

/-- The parsed override value one `(env-var, config-key)` pair contributes:
`none` when the variable is unset/empty or its value fails to parse. -/
def envParsed (env : String → Option String) (home : String)
    (var config_key : String) : Option Value :=
  (envTruthy env var).bind (fun v => parseEnvValue env home config_key v)

/-- One iteration of the `_apply_env_overrides` loop. -/
def stepOne (env : String → Option String) (home : String)
    (m : List (String × Value)) (p : String × String) :
    List (String × Value) :=
  match envParsed env home p.1 p.2 with
  | some v => setKey m p.2 v
  | none => m

/-- Embedding of `_apply_env_overrides`: fold the mapping table (in its
insertion order) over the config dict. -/
def applyFlat (env : String → Option String) (home : String)
    (m : List (String × Value)) : List (String × String) →
    List (String × Value)
  | [] => m
  | p :: rest => applyFlat env home (stepOne env home m p) rest

/-- Embedding of `_get_top_level_env_mapping`. -/
def topLevelEnvPairs : List (String × String) :=
  [("PAR_CC_USAGE_PROJECTS_DIR", "projects_dir"),
   ("PAR_CC_USAGE_POLLING_INTERVAL", "polling_interval"),
   ("PAR_CC_USAGE_TIMEZONE", "timezone"),
   ("PAR_CC_USAGE_TOKEN_LIMIT", "token_limit"),
   ("PAR_CC_USAGE_CACHE_DIR", "cache_dir"),
   ("PAR_CC_USAGE_DISABLE_CACHE", "disable_cache"),
   ("PAR_CC_USAGE_RECENT_ACTIVITY_WINDOW_HOURS", "recent_activity_window_hours")]

/-- Embedding of `_get_display_env_mapping`. -/
def displayEnvPairs : List (String × String) :=
  [("PAR_CC_USAGE_SHOW_PROGRESS_BARS", "show_progress_bars"),
   ("PAR_CC_USAGE_SHOW_ACTIVE_SESSIONS", "show_active_sessions"),
   ("PAR_CC_USAGE_UPDATE_IN_PLACE", "update_in_place"),
   ("PAR_CC_USAGE_REFRESH_INTERVAL", "refresh_interval"),
   ("PAR_CC_USAGE_TIME_FORMAT", "time_format"),
   ("PAR_CC_USAGE_PROJECT_NAME_PREFIXES", "project_name_prefixes"),
   ("PAR_CC_USAGE_SHOW_TOOL_USAGE", "show_tool_usage"),
   ("PAR_CC_USAGE_DISPLAY_MODE", "display_mode"),
   ("PAR_CC_USAGE_SHOW_PRICING", "show_pricing"),
   ("PAR_CC_USAGE_THEME", "theme")]

/-- Embedding of `_get_notification_env_mapping`. -/
def notificationEnvPairs : List (String × String) :=
  [("PAR_CC_USAGE_DISCORD_WEBHOOK_URL", "discord_webhook_url"),
   ("PAR_CC_USAGE_SLACK_WEBHOOK_URL", "slack_webhook_url"),
   ("PAR_CC_USAGE_NOTIFY_ON_BLOCK_COMPLETION", "notify_on_block_completion"),
   ("PAR_CC_USAGE_COOLDOWN_MINUTES", "cooldown_minutes")]

/-- Embedding of `_apply_claude_config_dir_override`: when
`CLAUDE_CONFIG_DIR` is set non-empty, overwrite `projects_dirs` with the
comma-split, stripped, non-empty segments turned into `Path` objects
(no `expand_path`, exactly as in the source). -/
def applyClaudeOverride (env : String → Option String)
    (m : List (String × Value)) : List (String × Value) :=
  match envTruthy env "CLAUDE_CONFIG_DIR" with
  | some claude_dirs =>
    setKey m "projects_dirs" (.list ((splitTrim claude_dirs).map .path))
  | none => m

/-- State of `section_dict` in `_apply_nested_env_overrides`: Python holds
either the (possibly fresh) dict for the section or whatever non-dict value
the file put there. -/
inductive SecVal where
  | dict (entries : List (String × Value))
  | scalar (v : Value)

/-- The `section_dict = config_dict.get(section_name, {})` step. -/
def secBase (m : List (String × Value)) (name : String) : SecVal :=
  match lookupKey m name with
  | none => .dict []
  | some (.map sm) => .dict sm
  | some v => .scalar v

/-- The loop of `_apply_nested_env_overrides`: an override that fires while
`section_dict` is not a dict raises `TypeError` (uncaught in the source),
embedded as an error. -/
def applySecPairs (env : String → Option String) (home : String) :
    SecVal → List (String × String) → Except String SecVal
  | sv, [] => .ok sv
  | sv, p :: rest =>
    match envParsed env home p.1 p.2 with
    | none => applySecPairs env home sv rest
    | some v =>
      match sv with
      | .dict entries => applySecPairs env home (.dict (setKey entries p.2 v)) rest
      | .scalar _ => .error "TypeError"

/-- Embedding of `_apply_nested_env_overrides`.  After the loop the section
dict is written back under `section_name` when truthy; since `section_dict`
aliases the dict already stored in `config_dict`, re-assigning an unchanged
existing value is a no-op, so only a non-empty dict needs writing back
(a scalar section value is re-assigned unchanged, also a no-op). -/
def applyNestedEnvOverrides (env : String → Option String) (home : String)
    (m : List (String × Value)) (name : String)
    (pairs : List (String × String)) : Except String (List (String × Value)) := do
  let sv ← applySecPairs env home (secBase m name) pairs
  match sv with
  | .dict [] => pure m
  | .dict entries => pure (setKey m name (.map entries))
  | .scalar _ => pure m

/-- The environment-override and validation pipeline of `load_config`,
taking the already-loaded file mapping (the result of `_load_config_file`)
as input. -/
def resolveConfig (env : String → Option String) (home : String)
    (fileMap : List (String × Value)) : Except String Config := do
  let m := applyClaudeOverride env fileMap
  let m := applyFlat env home m topLevelEnvPairs
  let m ← applyNestedEnvOverrides env home m "display" displayEnvPairs
  let m ← applyNestedEnvOverrides env home m "notifications" notificationEnvPairs
  validateConfig home m

/-! ## File loading -/

/-- Embedding of `_expand_paths_in_config` on one key: a string value under
a path field is replaced by the expanded `Path`. -/
def expandEntry (env : String → Option String) (home : String)
    (m : List (String × Value)) (k : String) : List (String × Value) :=
  match lookupKey m k with
  | some (.s str) => setKey m k (.path (expand_path env home str))
  | _ => m

/-- Embedding of `_expand_paths_in_config`: expand tilde and environment
variables in the path fields `projects_dir` and `cache_dir`. -/
def expandPathsInConfig (env : String → Option String) (home : String)
    (m : List (String × Value)) : List (String × Value) :=
  expandEntry env home (expandEntry env home m "projects_dir") "cache_dir"

/-- Outcome of one `Path.exists()` call (which may raise
`PermissionError`/`OSError`). -/
inductive ExistsResult where
  | yes
  | no
  | err
deriving DecidableEq, Repr

/-- Abstract filesystem input of `_load_config_file`.  `existsFirst` is the
guarded first existence check deciding legacy migration and `migratedLegacy`
whether a legacy file was copied; both only determine which file the second
phase reads, so the second phase is described directly by `existsMain` (the
`config_file.exists()` call inside the outer `try`) and `readMain` (`some
parsedMapping` when opening, decoding and YAML-parsing succeed — an empty or
`None`-parsing file being `some []` — and `none` when `UnicodeDecodeError`,
`yaml.YAMLError` or `OSError` is raised). -/
structure FileInput where
  existsFirst : ExistsResult
  migratedLegacy : Bool
  existsMain : ExistsResult
  readMain : Option (List (String × Value))

/-- Embedding of `_load_config_file`: any absence, existence-check error or
read/parse failure yields the empty mapping; a successful parse is returned
with its path fields expanded. -/
def loadConfigFile (env : String → Option String) (home : String)
    (io : FileInput) : List (String × Value) :=
  match io.existsMain with
  | .err => []
  | .no => []
  | .yes =>
    match io.readMain with
    | none => []
    | some m => expandPathsInConfig env home m

/-- Embedding of `load_config`: file layer, then `CLAUDE_CONFIG_DIR`, then
the three env mapping tables, then validation. -/
def load_config (env : String → Option String) (home : String)
    (io : FileInput) : Except String Config :=
  resolveConfig env home (loadConfigFile env home io)

/-! ## Persistence -/

/-- `int | None` serialized into YAML. -/
def optIntVal : Option Int → Value
  | none => .null
  | some n => .i n

/-- `str | None` serialized into YAML. -/
def optStrVal : Option String → Value
  | none => .null
  | some str => .s str

/-- Embedding of the mapping `save_config` serializes (key order follows the
source; `projects_dirs` is appended only when configured non-empty).  The
YAML text round-trips these scalar shapes exactly, so the written file is
identified with this mapping. -/
def saveConfigMap (config : Config) : List (String × Value) :=
  [("projects_dir", .s config.projects_dir),
   ("polling_interval", .i config.polling_interval),
   ("timezone", .s config.timezone),
   ("token_limit", optIntVal config.token_limit),
   ("cache_dir", .s config.cache_dir),
   ("display", .map
     [("show_progress_bars", .b config.display.show_progress_bars),
      ("show_active_sessions", .b config.display.show_active_sessions),
      ("update_in_place", .b config.display.update_in_place),
      ("refresh_interval", .i config.display.refresh_interval),
      ("time_format", .s config.display.time_format.value),
      ("project_name_prefixes", .list (config.display.project_name_prefixes.map .s)),
      ("display_mode", .s config.display.display_mode.value),
      ("show_pricing", .b config.display.show_pricing)]),
   ("notifications", .map
     [("discord_webhook_url", optStrVal config.notifications.discord_webhook_url),
      ("slack_webhook_url", optStrVal config.notifications.slack_webhook_url),
      ("notify_on_block_completion", .b config.notifications.notify_on_block_completion),
      ("cooldown_minutes", .i config.notifications.cooldown_minutes)])]
  ++ (match config.projects_dirs with
      | some (p :: ps) => [("projects_dirs", .list ((p :: ps).map .s))]
      | _ => [])

/-! ## Claude project path resolution -/

/-- Abstract directory filesystem for `Config.get_claude_paths`:
`isDirOn p` is `p.exists() and p.is_dir()` (always called together in the
source) and `resolve` is `Path.resolve()` canonicalization. -/
structure DirFS where
  isDirOn : String → Bool
  resolve : String → String

/-- The dedup-and-validate loop of `get_claude_paths`: keep a path when its
resolved form is unseen and it is an existing directory; only kept paths
enter `seen`. -/
def dedupValid (fs : DirFS) (seen : List String) :
    List String → List String
  | [] => []
  | p :: rest =>
    if fs.resolve p ∉ seen ∧ fs.isDirOn p then
      p :: dedupValid fs (fs.resolve p :: seen) rest
    else
      dedupValid fs seen rest

/-- The OS-default candidate directories checked by `get_claude_paths`. -/
def defaultClaudePaths (home : String) : List String :=
  [home ++ "/.config/claude/projects", home ++ "/.claude/projects"]

/-- Embedding of `Config.get_claude_paths`. -/
def get_claude_paths (fs : DirFS) (home : String) (config : Config) :
    List String :=
  let paths :=
    match config.projects_dirs with
    | some (d :: ds) => d :: ds
    | _ =>
      let dflts := (defaultClaudePaths home).filter fs.isDirOn
      if dflts.isEmpty then [config.projects_dir] else dflts
  dedupValid fs [] paths

/-! ## Claim-facing definitions -/

/-- An empty process environment. -/
def noEnv : String → Option String := fun _ => none

/-- File input describing a present, readable configuration file parsing to
the mapping `m`. -/
def mkFileInput (m : List (String × Value)) : FileInput :=
  { existsFirst := .yes, migratedLegacy := false, existsMain := .yes,
    readMain := some m }

/-- The key of `m` holds a value its field's coercion rejects. -/
def fieldViolation (m : List (String × Value)) (k : String)
    (coerce : Value → Except String α) : Prop :=
  ∃ v e, lookupKey m k = some v ∧ coerce v = .error e

/-- Some merged `display` value violates its field's type. -/
def displayViolation (m : List (String × Value)) : Prop :=
  fieldViolation m "show_progress_bars" coerceBool ∨
  fieldViolation m "show_active_sessions" coerceBool ∨
  fieldViolation m "update_in_place" coerceBool ∨
  fieldViolation m "refresh_interval" coerceInt ∨
  fieldViolation m "time_format" coerceTimeFormat ∨
  fieldViolation m "project_name_prefixes" coerceStrList ∨
  fieldViolation m "aggregate_by_project" coerceBool ∨
  fieldViolation m "show_tool_usage" coerceBool ∨
  fieldViolation m "display_mode" coerceDisplayMode ∨
  fieldViolation m "show_pricing" coerceBool ∨
  fieldViolation m "theme" coerceTheme

/-- Some merged `notifications` value violates its field's type. -/
def notifViolation (m : List (String × Value)) : Prop :=
  fieldViolation m "discord_webhook_url" coerceOptStr ∨
  fieldViolation m "slack_webhook_url" coerceOptStr ∨
  fieldViolation m "notify_on_block_completion" coerceBool ∨
  fieldViolation m "cooldown_minutes" coerceInt

/-- A nested section key is bound to a non-mapping, or its sub-mapping has a
violating value. -/
def sectionViolation (m : List (String × Value)) (name : String)
    (sub : List (String × Value) → Prop) : Prop :=
  (∃ v, lookupKey m name = some v ∧ ∀ l, v ≠ .map l) ∨
  (∃ l, lookupKey m name = some (.map l) ∧ sub l)

/-- Some value of the merged top-level mapping violates its field's closed
type (the condition under which schema validation hard-fails). -/
def topViolation (m : List (String × Value)) : Prop :=
  fieldViolation m "projects_dir" coercePath ∨
  fieldViolation m "projects_dirs" coerceOptPathList ∨
  fieldViolation m "polling_interval" coerceInt ∨
  fieldViolation m "timezone" coerceStr ∨
  fieldViolation m "token_limit" coerceOptInt ∨
  fieldViolation m "cache_dir" coercePath ∨
  fieldViolation m "disable_cache" coerceBool ∨
  sectionViolation m "display" displayViolation ∨
  sectionViolation m "notifications" notifViolation ∨
  fieldViolation m "recent_activity_window_hours" coerceInt

/-- The top-level keys the schema recognizes; validation reads no others. -/
def knownTopKeys : List String :=
  ["projects_dir", "projects_dirs", "polling_interval", "timezone",
   "token_limit", "cache_dir", "disable_cache", "display", "notifications",
   "recent_activity_window_hours"]

/-- The configuration obtained by reloading a saved configuration with no
environment overrides: serialized fields survive (path fields through
`expand_path`), everything not serialized returns to its schema default. -/
def reloadedConfig (env : String → Option String) (home : String)
    (config : Config) : Config :=
  { projects_dir := expand_path env home config.projects_dir
    projects_dirs :=
      match config.projects_dirs with
      | some (p :: ps) => some (p :: ps)
      | _ => none
    polling_interval := config.polling_interval
    timezone := config.timezone
    token_limit := config.token_limit
    cache_dir := expand_path env home config.cache_dir
    disable_cache := false
    display :=
      { show_progress_bars := config.display.show_progress_bars
        show_active_sessions := config.display.show_active_sessions
        update_in_place := config.display.update_in_place
        refresh_interval := config.display.refresh_interval
        time_format := config.display.time_format
        project_name_prefixes := config.display.project_name_prefixes
        aggregate_by_project := true
        show_tool_usage := false
        display_mode := config.display.display_mode
        show_pricing := config.display.show_pricing
        theme := .defaultTheme }
    notifications := config.notifications
    recent_activity_window_hours := 5 }

/-- Spec-side formulation of the claim's candidate selection for
`get_claude_paths`: the multi-directory list verbatim when non-empty,
otherwise existing OS-default directories, otherwise the singular
`projects_dir` without an existence check. -/
def claimCandidates (fs : DirFS) (home : String) (config : Config) :
    List String :=
  match config.projects_dirs with
  | some (d :: ds) => d :: ds
  | _ =>
    let dflts := (defaultClaudePaths home).filter fs.isDirOn
    if dflts.isEmpty then [config.projects_dir] else dflts

/-- Spec-side dedup: keep the first occurrence of each canonically resolved
path (applied after existence filtering in the claim's reading). -/
def dedupKeepFirst (fs : DirFS) (seen : List String) :
    List String → List String
  | [] => []
  | p :: rest =>
    if fs.resolve p ∈ seen then dedupKeepFirst fs seen rest
    else p :: dedupKeepFirst fs (fs.resolve p :: seen) rest

/-- Spec-side formulation of the claim's `CLAUDE_CONFIG_DIR` treatment: the
string split on commas, segments trimmed, empty segments dropped. -/
def splitTrimSpec (s : String) : List String :=
  (splitComma s.data).filterMap (fun g =>
    let t := stripPySpaces g
    if t.isEmpty then none else some (String.mk t))

/-- The property claim C5 asserts of every path-valued field of the
resolved configuration: an absolute path containing neither home-alias `~`
nor environment-variable `$NAME` syntax. -/
def cleanAbsPath (p : String) : Bool :=
  (match p.data with | '/' :: _ => true | _ => false) &&
  !(p.data.contains '~') && !(p.data.contains '$')

/-- A concrete environment exercising the path-expansion behaviour: a
tilde-prefixed projects-dir override, an absolute cache-dir override and a
`CLAUDE_CONFIG_DIR` list whose first segment keeps a home alias. -/
def envC5 : String → Option String := fun v =>
  if v = "PAR_CC_USAGE_PROJECTS_DIR" then some "~/p"
  else if v = "PAR_CC_USAGE_CACHE_DIR" then some "/c"
  else if v = "CLAUDE_CONFIG_DIR" then some " ~/a ,/b" else none

/-- Spec-side description of a numeric string (what Python `int` accepts):
after stripping whitespace and an optional sign, a non-empty run of digits
and underscores that starts and ends with a digit and has no two adjacent
underscores. -/
def noAdjacentUnderscores : List Char → Bool
  | a :: b :: t => !(a = '_' && b = '_') && noAdjacentUnderscores (b :: t)
  | _ => true

/-- Spec-side numeric-core test over the post-sign characters. -/
def numericCore (ds : List Char) : Bool :=
  !ds.isEmpty &&
  ds.all (fun c => c.isDigit || c = '_') &&
  (match ds.head? with | some c => c.isDigit | none => false) &&
  (match ds.getLast? with | some c => c.isDigit | none => false) &&
  noAdjacentUnderscores ds

/-- Spec-side numeric-string test (see `noAdjacentUnderscores`). -/
def isNumericStr (str : String) : Bool :=
  numericCore (splitSign (stripPySpaces str.data)).2

/-! ## Basic lemmas about the embedded dict operations -/

theorem exBind_ok {x : Except String α} {f : α → Except String β} {b : β} :
    (x >>= f) = .ok b ↔ ∃ a, x = .ok a ∧ f a = .ok b := by
  cases x <;> simp [Bind.bind, Except.bind]

theorem mapErr_ok {x : Except String α} {a : α} {k : String} :
    mapErr k x = .ok a ↔ x = .ok a := by
  cases x <;> simp [mapErr]

theorem lookup_setKey_self (m : List (String × Value)) (k : String) (v : Value) :
    lookupKey (setKey m k v) k = some v := by
  induction m with
  | nil => simp [setKey, lookupKey]
  | cons p rest ih =>
    by_cases h : p.1 = k
    · simp [setKey, lookupKey, h]
    · simp [setKey, lookupKey, h, ih]

theorem lookup_setKey_ne (m : List (String × Value)) {k k' : String} (v : Value)
    (h : k' ≠ k) : lookupKey (setKey m k' v) k = lookupKey m k := by
  induction m with
  | nil => simp [setKey, lookupKey, h]
  | cons p rest ih =>
    by_cases hp : p.1 = k'
    · simp [setKey, lookupKey, hp, h]
    · simp only [setKey, hp, if_false, lookupKey]
      by_cases hpk : p.1 = k
      · simp [hpk]
      · simp [hpk, ih]

theorem setKey_self {m : List (String × Value)} {k : String} {v : Value}
    (h : lookupKey m k = some v) : setKey m k v = m := by
  induction m with
  | nil => simp [lookupKey] at h
  | cons p rest ih =>
    obtain ⟨pk, pv⟩ := p
    by_cases hp : pk = k
    · simp only [lookupKey, hp, if_true, Option.some.injEq] at h
      simp [setKey, hp, h]
    · simp only [lookupKey, hp, if_false] at h
      simp [setKey, hp, ih h]

theorem length_le_setKey (m : List (String × Value)) (k : String) (v : Value) :
    m.length ≤ (setKey m k v).length := by
  induction m with
  | nil => simp [setKey]
  | cons p rest ih =>
    by_cases hp : p.1 = k
    · simp [setKey, hp]
    · simpa [setKey, hp] using ih

/-! ## Lemmas about `getField` and `getSection` -/

theorem getField_congr {m₁ m₂ : List (String × Value)} {k : String}
    (c : Value → Except String α) (d : α)
    (h : lookupKey m₁ k = lookupKey m₂ k) :
    getField m₁ k c d = getField m₂ k c d := by
  unfold getField; rw [h]

theorem getSection_congr {m₁ m₂ : List (String × Value)} {k : String}
    (valSec : List (String × Value) → Except String α) (d : α)
    (h : lookupKey m₁ k = lookupKey m₂ k) :
    getSection m₁ k valSec d = getSection m₂ k valSec d := by
  unfold getSection; rw [h]

theorem mapErrPrefix_ok {x : Except String α} {a : α} {k : String} :
    mapErrPrefix k x = .ok a ↔ x = .ok a := by
  cases x <;> simp [mapErrPrefix]

theorem getField_eq_none {m : List (String × Value)} {k : String}
    (c : Value → Except String α) (d : α) (hl : lookupKey m k = none) :
    getField m k c d = .ok d := by
  unfold getField; rw [hl]

theorem getField_eq_some {m : List (String × Value)} {k : String} {v : Value}
    (c : Value → Except String α) (d : α) (hl : lookupKey m k = some v) :
    getField m k c d = mapErrPrefix k (c v) := by
  unfold getField; rw [hl]

theorem getField_ok_none {m : List (String × Value)} {k : String}
    {c : Value → Except String α} {d a : α}
    (hl : lookupKey m k = none) (h : getField m k c d = .ok a) : a = d := by
  rw [getField_eq_none c d hl] at h
  cases h; rfl

theorem getField_ok_some {m : List (String × Value)} {k : String}
    {c : Value → Except String α} {d a : α} {v : Value}
    (hl : lookupKey m k = some v) (h : getField m k c d = .ok a) :
    c v = .ok a := by
  rw [getField_eq_some c d hl] at h
  exact mapErrPrefix_ok.mp h

theorem getField_error_elim {m : List (String × Value)} {k : String}
    {c : Value → Except String α} {d : α} {e : String}
    (h : getField m k c d = .error e) :
    ∃ v e', lookupKey m k = some v ∧ c v = .error e' := by
  cases hl : lookupKey m k with
  | none => rw [getField_eq_none c d hl] at h; cases h
  | some v =>
    rw [getField_eq_some c d hl] at h
    cases hc : c v with
    | ok b => rw [hc] at h; simp [mapErrPrefix] at h
    | error e' => exact ⟨v, e', rfl, hc⟩

theorem getField_ok_of {m : List (String × Value)} {k : String}
    {c : Value → Except String α} {d : α}
    (h : ∀ v, lookupKey m k = some v → ∃ a, c v = .ok a) :
    ∃ a, getField m k c d = .ok a := by
  cases hl : lookupKey m k with
  | none => exact ⟨d, getField_eq_none c d hl⟩
  | some v =>
    obtain ⟨a, ha⟩ := h v hl
    refine ⟨a, ?_⟩
    rw [getField_eq_some c d hl, ha]
    rfl

/-! ## Projection lemmas: a successful validation determines every field -/

theorem validateDisplayMap_ok_proj {m : List (String × Value)}
    {dc : DisplayConfig} (h : validateDisplayMap m = .ok dc) :
    getField m "show_progress_bars" coerceBool true = .ok dc.show_progress_bars ∧
    getField m "show_active_sessions" coerceBool false = .ok dc.show_active_sessions ∧
    getField m "update_in_place" coerceBool true = .ok dc.update_in_place ∧
    getField m "refresh_interval" coerceInt 1 = .ok dc.refresh_interval ∧
    getField m "time_format" coerceTimeFormat .twentyFourHour = .ok dc.time_format ∧
    getField m "project_name_prefixes" coerceStrList ["-Users-", "-home-"]
      = .ok dc.project_name_prefixes ∧
    getField m "aggregate_by_project" coerceBool true = .ok dc.aggregate_by_project ∧
    getField m "show_tool_usage" coerceBool false = .ok dc.show_tool_usage ∧
    getField m "display_mode" coerceDisplayMode .normal = .ok dc.display_mode ∧
    getField m "show_pricing" coerceBool false = .ok dc.show_pricing ∧
    getField m "theme" coerceTheme .defaultTheme = .ok dc.theme := by
  unfold validateDisplayMap at h
  simp only [exBind_ok, pure, Except.pure, Except.ok.injEq] at h
  obtain ⟨a1, h1, a2, h2, a3, h3, a4, h4, a5, h5, a6, h6, a7, h7, a8, h8,
    a9, h9, a10, h10, a11, h11, hfin⟩ := h
  subst hfin
  exact ⟨h1, h2, h3, h4, h5, h6, h7, h8, h9, h10, h11⟩

theorem validateNotifMap_ok_proj {m : List (String × Value)}
    {nc : NotificationConfig} (h : validateNotifMap m = .ok nc) :
    getField m "discord_webhook_url" coerceOptStr none = .ok nc.discord_webhook_url ∧
    getField m "slack_webhook_url" coerceOptStr none = .ok nc.slack_webhook_url ∧
    getField m "notify_on_block_completion" coerceBool true
      = .ok nc.notify_on_block_completion ∧
    getField m "cooldown_minutes" coerceInt 5 = .ok nc.cooldown_minutes := by
  unfold validateNotifMap at h
  simp only [exBind_ok, pure, Except.pure, Except.ok.injEq] at h
  obtain ⟨a1, h1, a2, h2, a3, h3, a4, h4, hfin⟩ := h
  subst hfin
  exact ⟨h1, h2, h3, h4⟩

theorem validateConfig_ok_proj {home : String} {m : List (String × Value)}
    {cfg : Config} (h : validateConfig home m = .ok cfg) :
    getField m "projects_dir" coercePath (defaultProjectsDir home) = .ok cfg.projects_dir ∧
    getField m "projects_dirs" coerceOptPathList none = .ok cfg.projects_dirs ∧
    getField m "polling_interval" coerceInt 5 = .ok cfg.polling_interval ∧
    getField m "timezone" coerceStr "America/Los_Angeles" = .ok cfg.timezone ∧
    getField m "token_limit" coerceOptInt none = .ok cfg.token_limit ∧
    getField m "cache_dir" coercePath (get_cache_dir home) = .ok cfg.cache_dir ∧
    getField m "disable_cache" coerceBool false = .ok cfg.disable_cache ∧
    getSection m "display" validateDisplayMap defaultDisplayConfig = .ok cfg.display ∧
    getSection m "notifications" validateNotifMap defaultNotificationConfig
      = .ok cfg.notifications ∧
    getField m "recent_activity_window_hours" coerceInt 5
      = .ok cfg.recent_activity_window_hours := by
  unfold validateConfig at h
  simp only [exBind_ok, pure, Except.pure, Except.ok.injEq] at h
  obtain ⟨a1, h1, a2, h2, a3, h3, a4, h4, a5, h5, a6, h6, a7, h7, a8, h8,
    a9, h9, a10, h10, hfin⟩ := h
  subst hfin
  exact ⟨h1, h2, h3, h4, h5, h6, h7, h8, h9, h10⟩

theorem getSection_eq_none {m : List (String × Value)} {k : String}
    (valSec : List (String × Value) → Except String α) (d : α)
    (hl : lookupKey m k = none) : getSection m k valSec d = .ok d := by
  unfold getSection; rw [hl]

theorem getSection_eq_map {m : List (String × Value)} {k : String}
    {sm : List (String × Value)}
    (valSec : List (String × Value) → Except String α) (d : α)
    (hl : lookupKey m k = some (.map sm)) :
    getSection m k valSec d = mapErr k (valSec sm) := by
  unfold getSection; rw [hl]

theorem getSection_eq_scalar {m : List (String × Value)} {k : String}
    {v : Value} (valSec : List (String × Value) → Except String α) (d : α)
    (hl : lookupKey m k = some v) (hv : ∀ l, v ≠ .map l) :
    getSection m k valSec d = .error (k ++ ": invalid section") := by
  unfold getSection; rw [hl]
  cases v with
  | map l => exact absurd rfl (hv l)
  | s str => rfl
  | i n => rfl
  | b bv => rfl
  | null => rfl
  | path p => rfl
  | list l => rfl

/-! ## Lemmas about the env-override passes -/

theorem lookup_stepOne_ne {env : String → Option String} {home : String}
    {m : List (String × Value)} {p : String × String} {k : String}
    (h : p.2 ≠ k) : lookupKey (stepOne env home m p) k = lookupKey m k := by
  unfold stepOne
  cases envParsed env home p.1 p.2 with
  | none => rfl
  | some v => exact lookup_setKey_ne m v h

theorem lookup_applyFlat_notMem {env : String → Option String} {home : String}
    {pairs : List (String × String)} {k : String}
    (h : ∀ p ∈ pairs, p.2 ≠ k) (m : List (String × Value)) :
    lookupKey (applyFlat env home m pairs) k = lookupKey m k := by
  induction pairs generalizing m with
  | nil => rfl
  | cons p rest ih =>
    simp only [applyFlat]
    rw [ih (fun q hq => h q (List.mem_cons_of_mem p hq)) (stepOne env home m p)]
    exact lookup_stepOne_ne (h p (List.mem_cons_self p rest))

theorem applyFlat_cons (env : String → Option String) (home : String)
    (m : List (String × Value)) (p : String × String)
    (rest : List (String × String)) :
    applyFlat env home m (p :: rest) =
      applyFlat env home (stepOne env home m p) rest := rfl

theorem lookup_applyFlat_target {env : String → Option String} {home : String}
    (k var : String) (pre post : List (String × String))
    (hpre : ∀ p ∈ pre, p.2 ≠ k) (hpost : ∀ p ∈ post, p.2 ≠ k)
    (m : List (String × Value)) :
    lookupKey (applyFlat env home m (pre ++ (var, k) :: post)) k =
      match envParsed env home var k with
      | some v => some v
      | none => lookupKey m k := by
  induction pre generalizing m with
  | nil =>
    rw [List.nil_append, applyFlat_cons, lookup_applyFlat_notMem hpost]
    unfold stepOne
    cases envParsed env home var k with
    | none => rfl
    | some v => exact lookup_setKey_self m k v
  | cons q pre ih =>
    rw [List.cons_append, applyFlat_cons,
      ih (fun p hp => hpre p (List.mem_cons_of_mem q hp)) (stepOne env home m q)]
    cases envParsed env home var k with
    | none => exact lookup_stepOne_ne (hpre q (List.mem_cons_self q pre))
    | some v => rfl

theorem length_le_applyFlat (env : String → Option String) (home : String)
    (pairs : List (String × String)) (m : List (String × Value)) :
    m.length ≤ (applyFlat env home m pairs).length := by
  induction pairs generalizing m with
  | nil => exact Nat.le_refl _
  | cons p rest ih =>
    refine Nat.le_trans ?_ (ih (stepOne env home m p))
    unfold stepOne
    cases envParsed env home p.1 p.2 with
    | none => exact Nat.le_refl _
    | some v => exact length_le_setKey m p.2 v

theorem applyFlat_nil_inv {env : String → Option String} {home : String}
    {pairs : List (String × String)} {m : List (String × Value)}
    (h : applyFlat env home m pairs = []) : m = [] := by
  have := length_le_applyFlat env home pairs m
  rw [h] at this
  simpa using List.length_eq_zero.mp (Nat.le_zero.mp this)

theorem lookup_claude_target (env : String → Option String)
    (m : List (String × Value)) :
    lookupKey (applyClaudeOverride env m) "projects_dirs" =
      match envTruthy env "CLAUDE_CONFIG_DIR" with
      | some cd => some (.list ((splitTrim cd).map .path))
      | none => lookupKey m "projects_dirs" := by
  unfold applyClaudeOverride
  cases envTruthy env "CLAUDE_CONFIG_DIR" with
  | none => rfl
  | some cd => exact lookup_setKey_self m _ _

theorem lookup_claude_ne {env : String → Option String}
    {m : List (String × Value)} {k : String} (h : k ≠ "projects_dirs") :
    lookupKey (applyClaudeOverride env m) k = lookupKey m k := by
  unfold applyClaudeOverride
  cases envTruthy env "CLAUDE_CONFIG_DIR" with
  | none => rfl
  | some cd => exact lookup_setKey_ne m _ (fun he => h he.symm)

/-! ## Lemmas about the nested-section pass -/

theorem applySecPairs_dict (env : String → Option String) (home : String)
    (pairs : List (String × String)) (l : List (String × Value)) :
    applySecPairs env home (.dict l) pairs =
      .ok (.dict (applyFlat env home l pairs)) := by
  induction pairs generalizing l with
  | nil => rfl
  | cons p rest ih =>
    simp only [applySecPairs, applyFlat, stepOne]
    cases envParsed env home p.1 p.2 with
    | none => exact ih l
    | some v => exact ih (setKey l p.2 v)

theorem applySecPairs_scalar {env : String → Option String} {home : String}
    {pairs : List (String × String)} {v : Value} {sv : SecVal}
    (h : applySecPairs env home (.scalar v) pairs = .ok sv) :
    sv = .scalar v ∧ ∀ p ∈ pairs, envParsed env home p.1 p.2 = none := by
  induction pairs with
  | nil =>
    refine ⟨?_, by simp⟩
    cases h; rfl
  | cons p rest ih =>
    simp only [applySecPairs] at h
    cases hp : envParsed env home p.1 p.2 with
    | none =>
      rw [hp] at h
      obtain ⟨h1, h2⟩ := ih h
      refine ⟨h1, ?_⟩
      intro q hq
      rcases List.mem_cons.mp hq with rfl | hq'
      · exact hp
      · exact h2 q hq'
    | some w => rw [hp] at h; cases h

theorem secBase_scalar_elim {m : List (String × Value)} {name : String}
    {v : Value} (h : secBase m name = .scalar v) :
    lookupKey m name = some v ∧ ∀ l, v ≠ .map l := by
  unfold secBase at h
  cases hl : lookupKey m name with
  | none => rw [hl] at h; cases h
  | some w =>
    rw [hl] at h
    cases w with
    | map l => cases h
    | s str => cases h; exact ⟨rfl, by intro l hc; cases hc⟩
    | i n => cases h; exact ⟨rfl, by intro l hc; cases hc⟩
    | b bv => cases h; exact ⟨rfl, by intro l hc; cases hc⟩
    | null => cases h; exact ⟨rfl, by intro l hc; cases hc⟩
    | path p => cases h; exact ⟨rfl, by intro l hc; cases hc⟩
    | list l' => cases h; exact ⟨rfl, by intro l hc; cases hc⟩

theorem secBase_dict_elim {m : List (String × Value)} {name : String}
    {l : List (String × Value)} (h : secBase m name = .dict l) :
    lookupKey m name = none ∧ l = [] ∨ lookupKey m name = some (.map l) := by
  unfold secBase at h
  cases hl : lookupKey m name with
  | none => rw [hl] at h; cases h; exact Or.inl ⟨rfl, rfl⟩
  | some w =>
    rw [hl] at h
    cases w with
    | map sm => cases h; exact Or.inr rfl
    | s str => cases h
    | i n => cases h
    | b bv => cases h
    | null => cases h
    | path p => cases h
    | list l' => cases h

theorem applyNested_ok_dict {env : String → Option String} {home : String}
    {m m' : List (String × Value)} {name : String}
    {pairs : List (String × String)} {l : List (String × Value)}
    (hbase : secBase m name = .dict l)
    (h : applyNestedEnvOverrides env home m name pairs = .ok m') :
    (applyFlat env home l pairs = [] ∧ m' = m) ∨
    (applyFlat env home l pairs ≠ [] ∧
      m' = setKey m name (.map (applyFlat env home l pairs))) := by
  unfold applyNestedEnvOverrides at h
  rw [hbase, applySecPairs_dict] at h
  simp only [exBind_ok] at h
  obtain ⟨sv, hsv, hfin⟩ := h
  cases hsv
  cases hl : applyFlat env home l pairs with
  | nil =>
    rw [hl] at hfin
    cases hfin
    exact Or.inl ⟨rfl, rfl⟩
  | cons q rest =>
    rw [hl] at hfin
    cases hfin
    refine Or.inr ⟨?_, ?_⟩
    · simp [hl]
    · rfl

theorem applyNested_ok_scalar {env : String → Option String} {home : String}
    {m m' : List (String × Value)} {name : String}
    {pairs : List (String × String)} {v : Value}
    (hbase : secBase m name = .scalar v)
    (h : applyNestedEnvOverrides env home m name pairs = .ok m') :
    m' = m := by
  unfold applyNestedEnvOverrides at h
  rw [hbase] at h
  simp only [exBind_ok] at h
  obtain ⟨sv, hsv, hfin⟩ := h
  obtain ⟨rfl, -⟩ := applySecPairs_scalar hsv
  cases hfin; rfl

theorem applyNested_ok_lookup_ne {env : String → Option String} {home : String}
    {m m' : List (String × Value)} {name : String}
    {pairs : List (String × String)} {k : String} (hk : k ≠ name)
    (h : applyNestedEnvOverrides env home m name pairs = .ok m') :
    lookupKey m' k = lookupKey m k := by
  cases hbase : secBase m name with
  | scalar v => rw [applyNested_ok_scalar hbase h]
  | dict l =>
    rcases applyNested_ok_dict hbase h with ⟨-, rfl⟩ | ⟨-, rfl⟩
    · rfl
    · exact lookup_setKey_ne m _ (fun he => hk he.symm)

theorem getSection_after_nested {env : String → Option String} {home : String}
    {m m' : List (String × Value)} {name : String}
    {pairs : List (String × String)} {l : List (String × Value)}
    (valSec : List (String × Value) → Except String α) {d : α}
    (hbase : secBase m name = .dict l)
    (h : applyNestedEnvOverrides env home m name pairs = .ok m')
    (hnil : valSec [] = .ok d) :
    getSection m' name valSec d =
      mapErr name (valSec (applyFlat env home l pairs)) := by
  rcases applyNested_ok_dict hbase h with ⟨hflat, rfl⟩ | ⟨hflat, rfl⟩
  · rw [hflat]
    have hl0 : l = [] := applyFlat_nil_inv hflat
    rcases secBase_dict_elim hbase with ⟨hnone, -⟩ | hsome
    · rw [getSection_eq_none valSec d hnone, hnil, mapErr]
    · rw [hl0] at hsome
      rw [getSection_eq_map valSec d hsome]
  · rw [getSection_eq_map valSec d (lookup_setKey_self m name _)]

/-! ## Per-key lookup instances over the concrete mapping tables -/


theorem lookup_top_projects_dir (env : String → Option String) (home : String)
    (m : List (String × Value)) :
    lookupKey (applyFlat env home m topLevelEnvPairs) "projects_dir" =
      match envParsed env home "PAR_CC_USAGE_PROJECTS_DIR" "projects_dir" with
      | some v => some v
      | none => lookupKey m "projects_dir" := by
  rw [show topLevelEnvPairs =
    List.nil ++ ("PAR_CC_USAGE_PROJECTS_DIR", "projects_dir") ::
    [("PAR_CC_USAGE_POLLING_INTERVAL", "polling_interval"),
      ("PAR_CC_USAGE_TIMEZONE", "timezone"),
      ("PAR_CC_USAGE_TOKEN_LIMIT", "token_limit"),
      ("PAR_CC_USAGE_CACHE_DIR", "cache_dir"),
      ("PAR_CC_USAGE_DISABLE_CACHE", "disable_cache"),
      ("PAR_CC_USAGE_RECENT_ACTIVITY_WINDOW_HOURS", "recent_activity_window_hours")] from rfl]
  exact lookup_applyFlat_target _ _ _ _ (by decide) (by decide) m

theorem lookup_top_polling_interval (env : String → Option String) (home : String)
    (m : List (String × Value)) :
    lookupKey (applyFlat env home m topLevelEnvPairs) "polling_interval" =
      match envParsed env home "PAR_CC_USAGE_POLLING_INTERVAL" "polling_interval" with
      | some v => some v
      | none => lookupKey m "polling_interval" := by
  rw [show topLevelEnvPairs =
    [("PAR_CC_USAGE_PROJECTS_DIR", "projects_dir")] ++ ("PAR_CC_USAGE_POLLING_INTERVAL", "polling_interval") ::
    [("PAR_CC_USAGE_TIMEZONE", "timezone"),
      ("PAR_CC_USAGE_TOKEN_LIMIT", "token_limit"),
      ("PAR_CC_USAGE_CACHE_DIR", "cache_dir"),
      ("PAR_CC_USAGE_DISABLE_CACHE", "disable_cache"),
      ("PAR_CC_USAGE_RECENT_ACTIVITY_WINDOW_HOURS", "recent_activity_window_hours")] from rfl]
  exact lookup_applyFlat_target _ _ _ _ (by decide) (by decide) m

theorem lookup_top_timezone (env : String → Option String) (home : String)
    (m : List (String × Value)) :
    lookupKey (applyFlat env home m topLevelEnvPairs) "timezone" =
      match envParsed env home "PAR_CC_USAGE_TIMEZONE" "timezone" with
      | some v => some v
      | none => lookupKey m "timezone" := by
  rw [show topLevelEnvPairs =
    [("PAR_CC_USAGE_PROJECTS_DIR", "projects_dir"),
      ("PAR_CC_USAGE_POLLING_INTERVAL", "polling_interval")] ++ ("PAR_CC_USAGE_TIMEZONE", "timezone") ::
    [("PAR_CC_USAGE_TOKEN_LIMIT", "token_limit"),
      ("PAR_CC_USAGE_CACHE_DIR", "cache_dir"),
      ("PAR_CC_USAGE_DISABLE_CACHE", "disable_cache"),
      ("PAR_CC_USAGE_RECENT_ACTIVITY_WINDOW_HOURS", "recent_activity_window_hours")] from rfl]
  exact lookup_applyFlat_target _ _ _ _ (by decide) (by decide) m

theorem lookup_top_token_limit (env : String → Option String) (home : String)
    (m : List (String × Value)) :
    lookupKey (applyFlat env home m topLevelEnvPairs) "token_limit" =
      match envParsed env home "PAR_CC_USAGE_TOKEN_LIMIT" "token_limit" with
      | some v => some v
      | none => lookupKey m "token_limit" := by
  rw [show topLevelEnvPairs =
    [("PAR_CC_USAGE_PROJECTS_DIR", "projects_dir"),
      ("PAR_CC_USAGE_POLLING_INTERVAL", "polling_interval"),
      ("PAR_CC_USAGE_TIMEZONE", "timezone")] ++ ("PAR_CC_USAGE_TOKEN_LIMIT", "token_limit") ::
    [("PAR_CC_USAGE_CACHE_DIR", "cache_dir"),
      ("PAR_CC_USAGE_DISABLE_CACHE", "disable_cache"),
      ("PAR_CC_USAGE_RECENT_ACTIVITY_WINDOW_HOURS", "recent_activity_window_hours")] from rfl]
  exact lookup_applyFlat_target _ _ _ _ (by decide) (by decide) m

theorem lookup_top_cache_dir (env : String → Option String) (home : String)
    (m : List (String × Value)) :
    lookupKey (applyFlat env home m topLevelEnvPairs) "cache_dir" =
      match envParsed env home "PAR_CC_USAGE_CACHE_DIR" "cache_dir" with
      | some v => some v
      | none => lookupKey m "cache_dir" := by
  rw [show topLevelEnvPairs =
    [("PAR_CC_USAGE_PROJECTS_DIR", "projects_dir"),
      ("PAR_CC_USAGE_POLLING_INTERVAL", "polling_interval"),
      ("PAR_CC_USAGE_TIMEZONE", "timezone"),
      ("PAR_CC_USAGE_TOKEN_LIMIT", "token_limit")] ++ ("PAR_CC_USAGE_CACHE_DIR", "cache_dir") ::
    [("PAR_CC_USAGE_DISABLE_CACHE", "disable_cache"),
      ("PAR_CC_USAGE_RECENT_ACTIVITY_WINDOW_HOURS", "recent_activity_window_hours")] from rfl]
  exact lookup_applyFlat_target _ _ _ _ (by decide) (by decide) m

theorem lookup_top_disable_cache (env : String → Option String) (home : String)
    (m : List (String × Value)) :
    lookupKey (applyFlat env home m topLevelEnvPairs) "disable_cache" =
      match envParsed env home "PAR_CC_USAGE_DISABLE_CACHE" "disable_cache" with
      | some v => some v
      | none => lookupKey m "disable_cache" := by
  rw [show topLevelEnvPairs =
    [("PAR_CC_USAGE_PROJECTS_DIR", "projects_dir"),
      ("PAR_CC_USAGE_POLLING_INTERVAL", "polling_interval"),
      ("PAR_CC_USAGE_TIMEZONE", "timezone"),
      ("PAR_CC_USAGE_TOKEN_LIMIT", "token_limit"),
      ("PAR_CC_USAGE_CACHE_DIR", "cache_dir")] ++ ("PAR_CC_USAGE_DISABLE_CACHE", "disable_cache") ::
    [("PAR_CC_USAGE_RECENT_ACTIVITY_WINDOW_HOURS", "recent_activity_window_hours")] from rfl]
  exact lookup_applyFlat_target _ _ _ _ (by decide) (by decide) m

theorem lookup_top_recent_activity_window_hours (env : String → Option String) (home : String)
    (m : List (String × Value)) :
    lookupKey (applyFlat env home m topLevelEnvPairs) "recent_activity_window_hours" =
      match envParsed env home "PAR_CC_USAGE_RECENT_ACTIVITY_WINDOW_HOURS" "recent_activity_window_hours" with
      | some v => some v
      | none => lookupKey m "recent_activity_window_hours" := by
  rw [show topLevelEnvPairs =
    [("PAR_CC_USAGE_PROJECTS_DIR", "projects_dir"),
      ("PAR_CC_USAGE_POLLING_INTERVAL", "polling_interval"),
      ("PAR_CC_USAGE_TIMEZONE", "timezone"),
      ("PAR_CC_USAGE_TOKEN_LIMIT", "token_limit"),
      ("PAR_CC_USAGE_CACHE_DIR", "cache_dir"),
      ("PAR_CC_USAGE_DISABLE_CACHE", "disable_cache")] ++ ("PAR_CC_USAGE_RECENT_ACTIVITY_WINDOW_HOURS", "recent_activity_window_hours") ::
    [] from rfl]
  exact lookup_applyFlat_target _ _ _ _ (by decide) (by decide) m

theorem lookup_disp_show_progress_bars (env : String → Option String) (home : String)
    (m : List (String × Value)) :
    lookupKey (applyFlat env home m displayEnvPairs) "show_progress_bars" =
      match envParsed env home "PAR_CC_USAGE_SHOW_PROGRESS_BARS" "show_progress_bars" with
      | some v => some v
      | none => lookupKey m "show_progress_bars" := by
  rw [show displayEnvPairs =
    List.nil ++ ("PAR_CC_USAGE_SHOW_PROGRESS_BARS", "show_progress_bars") ::
    [("PAR_CC_USAGE_SHOW_ACTIVE_SESSIONS", "show_active_sessions"),
      ("PAR_CC_USAGE_UPDATE_IN_PLACE", "update_in_place"),
      ("PAR_CC_USAGE_REFRESH_INTERVAL", "refresh_interval"),
      ("PAR_CC_USAGE_TIME_FORMAT", "time_format"),
      ("PAR_CC_USAGE_PROJECT_NAME_PREFIXES", "project_name_prefixes"),
      ("PAR_CC_USAGE_SHOW_TOOL_USAGE", "show_tool_usage"),
      ("PAR_CC_USAGE_DISPLAY_MODE", "display_mode"),
      ("PAR_CC_USAGE_SHOW_PRICING", "show_pricing"),
      ("PAR_CC_USAGE_THEME", "theme")] from rfl]
  exact lookup_applyFlat_target _ _ _ _ (by decide) (by decide) m

theorem lookup_disp_show_active_sessions (env : String → Option String) (home : String)
    (m : List (String × Value)) :
    lookupKey (applyFlat env home m displayEnvPairs) "show_active_sessions" =
      match envParsed env home "PAR_CC_USAGE_SHOW_ACTIVE_SESSIONS" "show_active_sessions" with
      | some v => some v
      | none => lookupKey m "show_active_sessions" := by
  rw [show displayEnvPairs =
    [("PAR_CC_USAGE_SHOW_PROGRESS_BARS", "show_progress_bars")] ++ ("PAR_CC_USAGE_SHOW_ACTIVE_SESSIONS", "show_active_sessions") ::
    [("PAR_CC_USAGE_UPDATE_IN_PLACE", "update_in_place"),
      ("PAR_CC_USAGE_REFRESH_INTERVAL", "refresh_interval"),
      ("PAR_CC_USAGE_TIME_FORMAT", "time_format"),
      ("PAR_CC_USAGE_PROJECT_NAME_PREFIXES", "project_name_prefixes"),
      ("PAR_CC_USAGE_SHOW_TOOL_USAGE", "show_tool_usage"),
      ("PAR_CC_USAGE_DISPLAY_MODE", "display_mode"),
      ("PAR_CC_USAGE_SHOW_PRICING", "show_pricing"),
      ("PAR_CC_USAGE_THEME", "theme")] from rfl]
  exact lookup_applyFlat_target _ _ _ _ (by decide) (by decide) m

theorem lookup_disp_update_in_place (env : String → Option String) (home : String)
    (m : List (String × Value)) :
    lookupKey (applyFlat env home m displayEnvPairs) "update_in_place" =
      match envParsed env home "PAR_CC_USAGE_UPDATE_IN_PLACE" "update_in_place" with
      | some v => some v
      | none => lookupKey m "update_in_place" := by
  rw [show displayEnvPairs =
    [("PAR_CC_USAGE_SHOW_PROGRESS_BARS", "show_progress_bars"),
      ("PAR_CC_USAGE_SHOW_ACTIVE_SESSIONS", "show_active_sessions")] ++ ("PAR_CC_USAGE_UPDATE_IN_PLACE", "update_in_place") ::
    [("PAR_CC_USAGE_REFRESH_INTERVAL", "refresh_interval"),
      ("PAR_CC_USAGE_TIME_FORMAT", "time_format"),
      ("PAR_CC_USAGE_PROJECT_NAME_PREFIXES", "project_name_prefixes"),
      ("PAR_CC_USAGE_SHOW_TOOL_USAGE", "show_tool_usage"),
      ("PAR_CC_USAGE_DISPLAY_MODE", "display_mode"),
      ("PAR_CC_USAGE_SHOW_PRICING", "show_pricing"),
      ("PAR_CC_USAGE_THEME", "theme")] from rfl]
  exact lookup_applyFlat_target _ _ _ _ (by decide) (by decide) m

theorem lookup_disp_refresh_interval (env : String → Option String) (home : String)
    (m : List (String × Value)) :
    lookupKey (applyFlat env home m displayEnvPairs) "refresh_interval" =
      match envParsed env home "PAR_CC_USAGE_REFRESH_INTERVAL" "refresh_interval" with
      | some v => some v
      | none => lookupKey m "refresh_interval" := by
  rw [show displayEnvPairs =
    [("PAR_CC_USAGE_SHOW_PROGRESS_BARS", "show_progress_bars"),
      ("PAR_CC_USAGE_SHOW_ACTIVE_SESSIONS", "show_active_sessions"),
      ("PAR_CC_USAGE_UPDATE_IN_PLACE", "update_in_place")] ++ ("PAR_CC_USAGE_REFRESH_INTERVAL", "refresh_interval") ::
    [("PAR_CC_USAGE_TIME_FORMAT", "time_format"),
      ("PAR_CC_USAGE_PROJECT_NAME_PREFIXES", "project_name_prefixes"),
      ("PAR_CC_USAGE_SHOW_TOOL_USAGE", "show_tool_usage"),
      ("PAR_CC_USAGE_DISPLAY_MODE", "display_mode"),
      ("PAR_CC_USAGE_SHOW_PRICING", "show_pricing"),
      ("PAR_CC_USAGE_THEME", "theme")] from rfl]
  exact lookup_applyFlat_target _ _ _ _ (by decide) (by decide) m

theorem lookup_disp_time_format (env : String → Option String) (home : String)
    (m : List (String × Value)) :
    lookupKey (applyFlat env home m displayEnvPairs) "time_format" =
      match envParsed env home "PAR_CC_USAGE_TIME_FORMAT" "time_format" with
      | some v => some v
      | none => lookupKey m "time_format" := by
  rw [show displayEnvPairs =
    [("PAR_CC_USAGE_SHOW_PROGRESS_BARS", "show_progress_bars"),
      ("PAR_CC_USAGE_SHOW_ACTIVE_SESSIONS", "show_active_sessions"),
      ("PAR_CC_USAGE_UPDATE_IN_PLACE", "update_in_place"),
      ("PAR_CC_USAGE_REFRESH_INTERVAL", "refresh_interval")] ++ ("PAR_CC_USAGE_TIME_FORMAT", "time_format") ::
    [("PAR_CC_USAGE_PROJECT_NAME_PREFIXES", "project_name_prefixes"),
      ("PAR_CC_USAGE_SHOW_TOOL_USAGE", "show_tool_usage"),
      ("PAR_CC_USAGE_DISPLAY_MODE", "display_mode"),
      ("PAR_CC_USAGE_SHOW_PRICING", "show_pricing"),
      ("PAR_CC_USAGE_THEME", "theme")] from rfl]
  exact lookup_applyFlat_target _ _ _ _ (by decide) (by decide) m

theorem lookup_disp_project_name_prefixes (env : String → Option String) (home : String)
    (m : List (String × Value)) :
    lookupKey (applyFlat env home m displayEnvPairs) "project_name_prefixes" =
      match envParsed env home "PAR_CC_USAGE_PROJECT_NAME_PREFIXES" "project_name_prefixes" with
      | some v => some v
      | none => lookupKey m "project_name_prefixes" := by
  rw [show displayEnvPairs =
    [("PAR_CC_USAGE_SHOW_PROGRESS_BARS", "show_progress_bars"),
      ("PAR_CC_USAGE_SHOW_ACTIVE_SESSIONS", "show_active_sessions"),
      ("PAR_CC_USAGE_UPDATE_IN_PLACE", "update_in_place"),
      ("PAR_CC_USAGE_REFRESH_INTERVAL", "refresh_interval"),
      ("PAR_CC_USAGE_TIME_FORMAT", "time_format")] ++ ("PAR_CC_USAGE_PROJECT_NAME_PREFIXES", "project_name_prefixes") ::
    [("PAR_CC_USAGE_SHOW_TOOL_USAGE", "show_tool_usage"),
      ("PAR_CC_USAGE_DISPLAY_MODE", "display_mode"),
      ("PAR_CC_USAGE_SHOW_PRICING", "show_pricing"),
      ("PAR_CC_USAGE_THEME", "theme")] from rfl]
  exact lookup_applyFlat_target _ _ _ _ (by decide) (by decide) m

theorem lookup_disp_show_tool_usage (env : String → Option String) (home : String)
    (m : List (String × Value)) :
    lookupKey (applyFlat env home m displayEnvPairs) "show_tool_usage" =
      match envParsed env home "PAR_CC_USAGE_SHOW_TOOL_USAGE" "show_tool_usage" with
      | some v => some v
      | none => lookupKey m "show_tool_usage" := by
  rw [show displayEnvPairs =
    [("PAR_CC_USAGE_SHOW_PROGRESS_BARS", "show_progress_bars"),
      ("PAR_CC_USAGE_SHOW_ACTIVE_SESSIONS", "show_active_sessions"),
      ("PAR_CC_USAGE_UPDATE_IN_PLACE", "update_in_place"),
      ("PAR_CC_USAGE_REFRESH_INTERVAL", "refresh_interval"),
      ("PAR_CC_USAGE_TIME_FORMAT", "time_format"),
      ("PAR_CC_USAGE_PROJECT_NAME_PREFIXES", "project_name_prefixes")] ++ ("PAR_CC_USAGE_SHOW_TOOL_USAGE", "show_tool_usage") ::
    [("PAR_CC_USAGE_DISPLAY_MODE", "display_mode"),
      ("PAR_CC_USAGE_SHOW_PRICING", "show_pricing"),
      ("PAR_CC_USAGE_THEME", "theme")] from rfl]
  exact lookup_applyFlat_target _ _ _ _ (by decide) (by decide) m

theorem lookup_disp_display_mode (env : String → Option String) (home : String)
    (m : List (String × Value)) :
    lookupKey (applyFlat env home m displayEnvPairs) "display_mode" =
      match envParsed env home "PAR_CC_USAGE_DISPLAY_MODE" "display_mode" with
      | some v => some v
      | none => lookupKey m "display_mode" := by
  rw [show displayEnvPairs =
    [("PAR_CC_USAGE_SHOW_PROGRESS_BARS", "show_progress_bars"),
      ("PAR_CC_USAGE_SHOW_ACTIVE_SESSIONS", "show_active_sessions"),
      ("PAR_CC_USAGE_UPDATE_IN_PLACE", "update_in_place"),
      ("PAR_CC_USAGE_REFRESH_INTERVAL", "refresh_interval"),
      ("PAR_CC_USAGE_TIME_FORMAT", "time_format"),
      ("PAR_CC_USAGE_PROJECT_NAME_PREFIXES", "project_name_prefixes"),
      ("PAR_CC_USAGE_SHOW_TOOL_USAGE", "show_tool_usage")] ++ ("PAR_CC_USAGE_DISPLAY_MODE", "display_mode") ::
    [("PAR_CC_USAGE_SHOW_PRICING", "show_pricing"),
      ("PAR_CC_USAGE_THEME", "theme")] from rfl]
  exact lookup_applyFlat_target _ _ _ _ (by decide) (by decide) m

theorem lookup_disp_show_pricing (env : String → Option String) (home : String)
    (m : List (String × Value)) :
    lookupKey (applyFlat env home m displayEnvPairs) "show_pricing" =
      match envParsed env home "PAR_CC_USAGE_SHOW_PRICING" "show_pricing" with
      | some v => some v
      | none => lookupKey m "show_pricing" := by
  rw [show displayEnvPairs =
    [("PAR_CC_USAGE_SHOW_PROGRESS_BARS", "show_progress_bars"),
      ("PAR_CC_USAGE_SHOW_ACTIVE_SESSIONS", "show_active_sessions"),
      ("PAR_CC_USAGE_UPDATE_IN_PLACE", "update_in_place"),
      ("PAR_CC_USAGE_REFRESH_INTERVAL", "refresh_interval"),
      ("PAR_CC_USAGE_TIME_FORMAT", "time_format"),
      ("PAR_CC_USAGE_PROJECT_NAME_PREFIXES", "project_name_prefixes"),
      ("PAR_CC_USAGE_SHOW_TOOL_USAGE", "show_tool_usage"),
      ("PAR_CC_USAGE_DISPLAY_MODE", "display_mode")] ++ ("PAR_CC_USAGE_SHOW_PRICING", "show_pricing") ::
    [("PAR_CC_USAGE_THEME", "theme")] from rfl]
  exact lookup_applyFlat_target _ _ _ _ (by decide) (by decide) m

theorem lookup_disp_theme (env : String → Option String) (home : String)
    (m : List (String × Value)) :
    lookupKey (applyFlat env home m displayEnvPairs) "theme" =
      match envParsed env home "PAR_CC_USAGE_THEME" "theme" with
      | some v => some v
      | none => lookupKey m "theme" := by
  rw [show displayEnvPairs =
    [("PAR_CC_USAGE_SHOW_PROGRESS_BARS", "show_progress_bars"),
      ("PAR_CC_USAGE_SHOW_ACTIVE_SESSIONS", "show_active_sessions"),
      ("PAR_CC_USAGE_UPDATE_IN_PLACE", "update_in_place"),
      ("PAR_CC_USAGE_REFRESH_INTERVAL", "refresh_interval"),
      ("PAR_CC_USAGE_TIME_FORMAT", "time_format"),
      ("PAR_CC_USAGE_PROJECT_NAME_PREFIXES", "project_name_prefixes"),
      ("PAR_CC_USAGE_SHOW_TOOL_USAGE", "show_tool_usage"),
      ("PAR_CC_USAGE_DISPLAY_MODE", "display_mode"),
      ("PAR_CC_USAGE_SHOW_PRICING", "show_pricing")] ++ ("PAR_CC_USAGE_THEME", "theme") ::
    [] from rfl]
  exact lookup_applyFlat_target _ _ _ _ (by decide) (by decide) m

theorem lookup_notif_discord_webhook_url (env : String → Option String) (home : String)
    (m : List (String × Value)) :
    lookupKey (applyFlat env home m notificationEnvPairs) "discord_webhook_url" =
      match envParsed env home "PAR_CC_USAGE_DISCORD_WEBHOOK_URL" "discord_webhook_url" with
      | some v => some v
      | none => lookupKey m "discord_webhook_url" := by
  rw [show notificationEnvPairs =
    List.nil ++ ("PAR_CC_USAGE_DISCORD_WEBHOOK_URL", "discord_webhook_url") ::
    [("PAR_CC_USAGE_SLACK_WEBHOOK_URL", "slack_webhook_url"),
      ("PAR_CC_USAGE_NOTIFY_ON_BLOCK_COMPLETION", "notify_on_block_completion"),
      ("PAR_CC_USAGE_COOLDOWN_MINUTES", "cooldown_minutes")] from rfl]
  exact lookup_applyFlat_target _ _ _ _ (by decide) (by decide) m

theorem lookup_notif_slack_webhook_url (env : String → Option String) (home : String)
    (m : List (String × Value)) :
    lookupKey (applyFlat env home m notificationEnvPairs) "slack_webhook_url" =
      match envParsed env home "PAR_CC_USAGE_SLACK_WEBHOOK_URL" "slack_webhook_url" with
      | some v => some v
      | none => lookupKey m "slack_webhook_url" := by
  rw [show notificationEnvPairs =
    [("PAR_CC_USAGE_DISCORD_WEBHOOK_URL", "discord_webhook_url")] ++ ("PAR_CC_USAGE_SLACK_WEBHOOK_URL", "slack_webhook_url") ::
    [("PAR_CC_USAGE_NOTIFY_ON_BLOCK_COMPLETION", "notify_on_block_completion"),
      ("PAR_CC_USAGE_COOLDOWN_MINUTES", "cooldown_minutes")] from rfl]
  exact lookup_applyFlat_target _ _ _ _ (by decide) (by decide) m

theorem lookup_notif_notify_on_block_completion (env : String → Option String) (home : String)
    (m : List (String × Value)) :
    lookupKey (applyFlat env home m notificationEnvPairs) "notify_on_block_completion" =
      match envParsed env home "PAR_CC_USAGE_NOTIFY_ON_BLOCK_COMPLETION" "notify_on_block_completion" with
      | some v => some v
      | none => lookupKey m "notify_on_block_completion" := by
  rw [show notificationEnvPairs =
    [("PAR_CC_USAGE_DISCORD_WEBHOOK_URL", "discord_webhook_url"),
      ("PAR_CC_USAGE_SLACK_WEBHOOK_URL", "slack_webhook_url")] ++ ("PAR_CC_USAGE_NOTIFY_ON_BLOCK_COMPLETION", "notify_on_block_completion") ::
    [("PAR_CC_USAGE_COOLDOWN_MINUTES", "cooldown_minutes")] from rfl]
  exact lookup_applyFlat_target _ _ _ _ (by decide) (by decide) m

theorem lookup_notif_cooldown_minutes (env : String → Option String) (home : String)
    (m : List (String × Value)) :
    lookupKey (applyFlat env home m notificationEnvPairs) "cooldown_minutes" =
      match envParsed env home "PAR_CC_USAGE_COOLDOWN_MINUTES" "cooldown_minutes" with
      | some v => some v
      | none => lookupKey m "cooldown_minutes" := by
  rw [show notificationEnvPairs =
    [("PAR_CC_USAGE_DISCORD_WEBHOOK_URL", "discord_webhook_url"),
      ("PAR_CC_USAGE_SLACK_WEBHOOK_URL", "slack_webhook_url"),
      ("PAR_CC_USAGE_NOTIFY_ON_BLOCK_COMPLETION", "notify_on_block_completion")] ++ ("PAR_CC_USAGE_COOLDOWN_MINUTES", "cooldown_minutes") ::
    [] from rfl]
  exact lookup_applyFlat_target _ _ _ _ (by decide) (by decide) m

/-! ## The resolution chain and the layered precedence formulation -/

theorem resolveConfig_ok_elim {env : String → Option String} {home : String}
    {fileMap : List (String × Value)} {cfg : Config}
    (h : resolveConfig env home fileMap = .ok cfg) :
    ∃ m3 m4,
      applyNestedEnvOverrides env home
        (applyFlat env home (applyClaudeOverride env fileMap) topLevelEnvPairs)
        "display" displayEnvPairs = .ok m3 ∧
      applyNestedEnvOverrides env home m3 "notifications" notificationEnvPairs
        = .ok m4 ∧
      validateConfig home m4 = .ok cfg := by
  unfold resolveConfig at h
  simp only [exBind_ok] at h
  obtain ⟨m3, h3, m4, h4, hval⟩ := h
  exact ⟨m3, m4, h3, h4, hval⟩

/-- The spec's per-field precedence: environment override when present,
otherwise file value, otherwise schema default — all passing through the
schema's coercion. -/
def layered (envV fileV : Option Value) (coerce : Value → Except String α)
    (dflt : α) : Except String α :=
  match envV with
  | some v => coerce v
  | none =>
    match fileV with
    | some v => coerce v
    | none => .ok dflt

/-- The value the parsed file mapping supplies for key `k` of nested
section `sec` (nothing when the section is absent or not a mapping). -/
def fileSec (m : List (String × Value)) (sec k : String) : Option Value :=
  match lookupKey m sec with
  | some (.map l) => lookupKey l k
  | _ => none

/-- The override value the special `CLAUDE_CONFIG_DIR` variable supplies
for `projects_dirs`. -/
def claudeEnvVal (env : String → Option String) : Option Value :=
  (envTruthy env "CLAUDE_CONFIG_DIR").map
    (fun cd => Value.list ((splitTrim cd).map .path))

theorem layered_of_lookup {m : List (String × Value)} {k : String}
    {eo fo : Option Value} {c : Value → Except String α} {d a : α}
    (hik : lookupKey m k =
      (match eo with | some v => some v | none => fo))
    (hgf : getField m k c d = .ok a) :
    layered eo fo c d = .ok a := by
  cases eo with
  | some v => exact getField_ok_some hik hgf
  | none =>
    cases fo with
    | some v => exact getField_ok_some hik hgf
    | none =>
      rw [getField_ok_none hik hgf]
      rfl

theorem secBase_congr {m₁ m₂ : List (String × Value)} {name : String}
    (h : lookupKey m₁ name = lookupKey m₂ name) :
    secBase m₁ name = secBase m₂ name := by
  unfold secBase; rw [h]

theorem fileSec_of_dict {fm : List (String × Value)} {sec : String}
    {l : List (String × Value)} (hbase : secBase fm sec = .dict l)
    (k : String) : fileSec fm sec k = lookupKey l k := by
  rcases secBase_dict_elim hbase with ⟨hn, rfl⟩ | hs
  · unfold fileSec; rw [hn]; rfl
  · unfold fileSec; rw [hs]

theorem lookup_top_other {env : String → Option String} {home : String}
    {k : String} (h : ∀ p ∈ topLevelEnvPairs, p.2 ≠ k)
    (hpd : k ≠ "projects_dirs") (m : List (String × Value)) :
    lookupKey (applyFlat env home (applyClaudeOverride env m) topLevelEnvPairs) k
      = lookupKey m k := by
  rw [lookup_applyFlat_notMem h, lookup_claude_ne hpd]

/-- `validateDisplayMap` of the empty mapping is all defaults. -/
theorem validateDisplayMap_nil : validateDisplayMap [] = .ok defaultDisplayConfig := rfl

/-- `validateNotifMap` of the empty mapping is all defaults. -/
theorem validateNotifMap_nil : validateNotifMap [] = .ok defaultNotificationConfig := rfl

/-- Claim C1: every field of a configuration successfully produced by the
resolution pipeline is determined by strict per-field precedence — a set,
non-empty environment override whose value coerces wins, otherwise the value
present in the parsed file mapping, otherwise the schema default. -/
theorem claim_C1 (env : String → Option String) (home : String)
    (fileMap : List (String × Value)) (cfg : Config)
    (hok : resolveConfig env home fileMap = .ok cfg) :
    layered (envParsed env home "PAR_CC_USAGE_PROJECTS_DIR" "projects_dir")
      (lookupKey fileMap "projects_dir") coercePath (defaultProjectsDir home)
      = .ok cfg.projects_dir ∧
    layered (claudeEnvVal env) (lookupKey fileMap "projects_dirs")
      coerceOptPathList none = .ok cfg.projects_dirs ∧
    layered (envParsed env home "PAR_CC_USAGE_POLLING_INTERVAL" "polling_interval")
      (lookupKey fileMap "polling_interval") coerceInt 5
      = .ok cfg.polling_interval ∧
    layered (envParsed env home "PAR_CC_USAGE_TIMEZONE" "timezone")
      (lookupKey fileMap "timezone") coerceStr "America/Los_Angeles"
      = .ok cfg.timezone ∧
    layered (envParsed env home "PAR_CC_USAGE_TOKEN_LIMIT" "token_limit")
      (lookupKey fileMap "token_limit") coerceOptInt none = .ok cfg.token_limit ∧
    layered (envParsed env home "PAR_CC_USAGE_CACHE_DIR" "cache_dir")
      (lookupKey fileMap "cache_dir") coercePath (get_cache_dir home)
      = .ok cfg.cache_dir ∧
    layered (envParsed env home "PAR_CC_USAGE_DISABLE_CACHE" "disable_cache")
      (lookupKey fileMap "disable_cache") coerceBool false
      = .ok cfg.disable_cache ∧
    layered (envParsed env home "PAR_CC_USAGE_RECENT_ACTIVITY_WINDOW_HOURS"
        "recent_activity_window_hours")
      (lookupKey fileMap "recent_activity_window_hours") coerceInt 5
      = .ok cfg.recent_activity_window_hours ∧
    layered (envParsed env home "PAR_CC_USAGE_SHOW_PROGRESS_BARS" "show_progress_bars")
      (fileSec fileMap "display" "show_progress_bars") coerceBool true
      = .ok cfg.display.show_progress_bars ∧
    layered (envParsed env home "PAR_CC_USAGE_SHOW_ACTIVE_SESSIONS" "show_active_sessions")
      (fileSec fileMap "display" "show_active_sessions") coerceBool false
      = .ok cfg.display.show_active_sessions ∧
    layered (envParsed env home "PAR_CC_USAGE_UPDATE_IN_PLACE" "update_in_place")
      (fileSec fileMap "display" "update_in_place") coerceBool true
      = .ok cfg.display.update_in_place ∧
    layered (envParsed env home "PAR_CC_USAGE_REFRESH_INTERVAL" "refresh_interval")
      (fileSec fileMap "display" "refresh_interval") coerceInt 1
      = .ok cfg.display.refresh_interval ∧
    layered (envParsed env home "PAR_CC_USAGE_TIME_FORMAT" "time_format")
      (fileSec fileMap "display" "time_format") coerceTimeFormat .twentyFourHour
      = .ok cfg.display.time_format ∧
    layered (envParsed env home "PAR_CC_USAGE_PROJECT_NAME_PREFIXES" "project_name_prefixes")
      (fileSec fileMap "display" "project_name_prefixes") coerceStrList
      ["-Users-", "-home-"] = .ok cfg.display.project_name_prefixes ∧
    layered none (fileSec fileMap "display" "aggregate_by_project") coerceBool true
      = .ok cfg.display.aggregate_by_project ∧
    layered (envParsed env home "PAR_CC_USAGE_SHOW_TOOL_USAGE" "show_tool_usage")
      (fileSec fileMap "display" "show_tool_usage") coerceBool false
      = .ok cfg.display.show_tool_usage ∧
    layered (envParsed env home "PAR_CC_USAGE_DISPLAY_MODE" "display_mode")
      (fileSec fileMap "display" "display_mode") coerceDisplayMode .normal
      = .ok cfg.display.display_mode ∧
    layered (envParsed env home "PAR_CC_USAGE_SHOW_PRICING" "show_pricing")
      (fileSec fileMap "display" "show_pricing") coerceBool false
      = .ok cfg.display.show_pricing ∧
    layered (envParsed env home "PAR_CC_USAGE_THEME" "theme")
      (fileSec fileMap "display" "theme") coerceTheme .defaultTheme
      = .ok cfg.display.theme ∧
    layered (envParsed env home "PAR_CC_USAGE_DISCORD_WEBHOOK_URL" "discord_webhook_url")
      (fileSec fileMap "notifications" "discord_webhook_url") coerceOptStr none
      = .ok cfg.notifications.discord_webhook_url ∧
    layered (envParsed env home "PAR_CC_USAGE_SLACK_WEBHOOK_URL" "slack_webhook_url")
      (fileSec fileMap "notifications" "slack_webhook_url") coerceOptStr none
      = .ok cfg.notifications.slack_webhook_url ∧
    layered (envParsed env home "PAR_CC_USAGE_NOTIFY_ON_BLOCK_COMPLETION"
        "notify_on_block_completion")
      (fileSec fileMap "notifications" "notify_on_block_completion") coerceBool true
      = .ok cfg.notifications.notify_on_block_completion ∧
    layered (envParsed env home "PAR_CC_USAGE_COOLDOWN_MINUTES" "cooldown_minutes")
      (fileSec fileMap "notifications" "cooldown_minutes") coerceInt 5
      = .ok cfg.notifications.cooldown_minutes := by
  obtain ⟨m3, m4, hd, hn, hval⟩ := resolveConfig_ok_elim hok
  obtain ⟨hq1, hq2, hq3, hq4, hq5, hq6, hq7, hqd, hqn, hq8⟩ :=
    validateConfig_ok_proj hval
  have htop : ∀ k : String, k ≠ "display" → k ≠ "notifications" →
      lookupKey m4 k =
        lookupKey (applyFlat env home (applyClaudeOverride env fileMap)
          topLevelEnvPairs) k :=
    fun k h1 h2 =>
      (applyNested_ok_lookup_ne h2 hn).trans (applyNested_ok_lookup_ne h1 hd)
  have hl34 : lookupKey m4 "display" = lookupKey m3 "display" :=
    applyNested_ok_lookup_ne (by decide) hn
  have hgd3 : getSection m3 "display" validateDisplayMap defaultDisplayConfig
      = .ok cfg.display :=
    (getSection_congr validateDisplayMap defaultDisplayConfig hl34).symm.trans hqd
  cases hbaseD : secBase (applyFlat env home (applyClaudeOverride env fileMap)
      topLevelEnvPairs) "display" with
  | scalar v =>
    exfalso
    have hm3 := applyNested_ok_scalar hbaseD hd
    obtain ⟨hlv, hnm⟩ := secBase_scalar_elim hbaseD
    rw [hm3, getSection_eq_scalar validateDisplayMap defaultDisplayConfig hlv hnm]
      at hgd3
    simp at hgd3
  | dict l =>
    cases hbaseN : secBase m3 "notifications" with
    | scalar v =>
      exfalso
      have hm4 := applyNested_ok_scalar hbaseN hn
      obtain ⟨hlv, hnm⟩ := secBase_scalar_elim hbaseN
      rw [hm4, getSection_eq_scalar validateNotifMap defaultNotificationConfig
        hlv hnm] at hqn
      simp at hqn
    | dict lN =>
      have hgs := getSection_after_nested validateDisplayMap hbaseD hd
        validateDisplayMap_nil
      have hvd : validateDisplayMap (applyFlat env home l displayEnvPairs)
          = .ok cfg.display := mapErr_ok.mp (hgs.symm.trans hgd3)
      obtain ⟨hd1, hd2, hd3, hd4, hd5, hd6, hd7, hd8, hd9, hd10, hd11⟩ :=
        validateDisplayMap_ok_proj hvd
      have hsbD : secBase fileMap "display" = .dict l :=
        (secBase_congr (lookup_top_other (by decide) (by decide) fileMap)).symm.trans
          hbaseD
      have hfsD : ∀ k, fileSec fileMap "display" k = lookupKey l k :=
        fun k => fileSec_of_dict hsbD k
      have hgsN := getSection_after_nested validateNotifMap hbaseN hn
        validateNotifMap_nil
      have hvn : validateNotifMap (applyFlat env home lN notificationEnvPairs)
          = .ok cfg.notifications := mapErr_ok.mp (hgsN.symm.trans hqn)
      obtain ⟨hn1, hn2, hn3, hn4⟩ := validateNotifMap_ok_proj hvn
      have hlN : lookupKey m3 "notifications" = lookupKey fileMap "notifications" :=
        (applyNested_ok_lookup_ne (by decide) hd).trans
          (lookup_top_other (by decide) (by decide) fileMap)
      have hsbN : secBase fileMap "notifications" = .dict lN :=
        (secBase_congr hlN).symm.trans hbaseN
      have hfsN : ∀ k, fileSec fileMap "notifications" k = lookupKey lN k :=
        fun k => fileSec_of_dict hsbN k
      refine ⟨?_, ?_, ?_, ?_, ?_, ?_, ?_, ?_, ?_, ?_, ?_, ?_, ?_, ?_, ?_, ?_,
        ?_, ?_, ?_, ?_, ?_, ?_, ?_⟩
      · refine layered_of_lookup ?_ hq1
        rw [htop "projects_dir" (by decide) (by decide), lookup_top_projects_dir]
        cases envParsed env home "PAR_CC_USAGE_PROJECTS_DIR" "projects_dir" with
        | some v => rfl
        | none => exact lookup_claude_ne (by decide)
      · refine layered_of_lookup ?_ hq2
        rw [htop "projects_dirs" (by decide) (by decide),
          lookup_applyFlat_notMem (by decide), lookup_claude_target]
        unfold claudeEnvVal
        cases envTruthy env "CLAUDE_CONFIG_DIR" <;> rfl
      · refine layered_of_lookup ?_ hq3
        rw [htop "polling_interval" (by decide) (by decide),
          lookup_top_polling_interval]
        cases envParsed env home "PAR_CC_USAGE_POLLING_INTERVAL" "polling_interval" with
        | some v => rfl
        | none => exact lookup_claude_ne (by decide)
      · refine layered_of_lookup ?_ hq4
        rw [htop "timezone" (by decide) (by decide), lookup_top_timezone]
        cases envParsed env home "PAR_CC_USAGE_TIMEZONE" "timezone" with
        | some v => rfl
        | none => exact lookup_claude_ne (by decide)
      · refine layered_of_lookup ?_ hq5
        rw [htop "token_limit" (by decide) (by decide), lookup_top_token_limit]
        cases envParsed env home "PAR_CC_USAGE_TOKEN_LIMIT" "token_limit" with
        | some v => rfl
        | none => exact lookup_claude_ne (by decide)
      · refine layered_of_lookup ?_ hq6
        rw [htop "cache_dir" (by decide) (by decide), lookup_top_cache_dir]
        cases envParsed env home "PAR_CC_USAGE_CACHE_DIR" "cache_dir" with
        | some v => rfl
        | none => exact lookup_claude_ne (by decide)
      · refine layered_of_lookup ?_ hq7
        rw [htop "disable_cache" (by decide) (by decide), lookup_top_disable_cache]
        cases envParsed env home "PAR_CC_USAGE_DISABLE_CACHE" "disable_cache" with
        | some v => rfl
        | none => exact lookup_claude_ne (by decide)
      · refine layered_of_lookup ?_ hq8
        rw [htop "recent_activity_window_hours" (by decide) (by decide),
          lookup_top_recent_activity_window_hours]
        cases envParsed env home "PAR_CC_USAGE_RECENT_ACTIVITY_WINDOW_HOURS"
          "recent_activity_window_hours" with
        | some v => rfl
        | none => exact lookup_claude_ne (by decide)
      · refine layered_of_lookup ?_ hd1
        rw [lookup_disp_show_progress_bars]
        cases envParsed env home "PAR_CC_USAGE_SHOW_PROGRESS_BARS" "show_progress_bars" with
        | some v => rfl
        | none => exact (hfsD _).symm
      · refine layered_of_lookup ?_ hd2
        rw [lookup_disp_show_active_sessions]
        cases envParsed env home "PAR_CC_USAGE_SHOW_ACTIVE_SESSIONS" "show_active_sessions" with
        | some v => rfl
        | none => exact (hfsD _).symm
      · refine layered_of_lookup ?_ hd3
        rw [lookup_disp_update_in_place]
        cases envParsed env home "PAR_CC_USAGE_UPDATE_IN_PLACE" "update_in_place" with
        | some v => rfl
        | none => exact (hfsD _).symm
      · refine layered_of_lookup ?_ hd4
        rw [lookup_disp_refresh_interval]
        cases envParsed env home "PAR_CC_USAGE_REFRESH_INTERVAL" "refresh_interval" with
        | some v => rfl
        | none => exact (hfsD _).symm
      · refine layered_of_lookup ?_ hd5
        rw [lookup_disp_time_format]
        cases envParsed env home "PAR_CC_USAGE_TIME_FORMAT" "time_format" with
        | some v => rfl
        | none => exact (hfsD _).symm
      · refine layered_of_lookup ?_ hd6
        rw [lookup_disp_project_name_prefixes]
        cases envParsed env home "PAR_CC_USAGE_PROJECT_NAME_PREFIXES" "project_name_prefixes" with
        | some v => rfl
        | none => exact (hfsD _).symm
      · refine layered_of_lookup ?_ hd7
        rw [lookup_applyFlat_notMem (by decide)]
        exact (hfsD _).symm
      · refine layered_of_lookup ?_ hd8
        rw [lookup_disp_show_tool_usage]
        cases envParsed env home "PAR_CC_USAGE_SHOW_TOOL_USAGE" "show_tool_usage" with
        | some v => rfl
        | none => exact (hfsD _).symm
      · refine layered_of_lookup ?_ hd9
        rw [lookup_disp_display_mode]
        cases envParsed env home "PAR_CC_USAGE_DISPLAY_MODE" "display_mode" with
        | some v => rfl
        | none => exact (hfsD _).symm
      · refine layered_of_lookup ?_ hd10
        rw [lookup_disp_show_pricing]
        cases envParsed env home "PAR_CC_USAGE_SHOW_PRICING" "show_pricing" with
        | some v => rfl
        | none => exact (hfsD _).symm
      · refine layered_of_lookup ?_ hd11
        rw [lookup_disp_theme]
        cases envParsed env home "PAR_CC_USAGE_THEME" "theme" with
        | some v => rfl
        | none => exact (hfsD _).symm
      · refine layered_of_lookup ?_ hn1
        rw [lookup_notif_discord_webhook_url]
        cases envParsed env home "PAR_CC_USAGE_DISCORD_WEBHOOK_URL" "discord_webhook_url" with
        | some v => rfl
        | none => exact (hfsN _).symm
      · refine layered_of_lookup ?_ hn2
        rw [lookup_notif_slack_webhook_url]
        cases envParsed env home "PAR_CC_USAGE_SLACK_WEBHOOK_URL" "slack_webhook_url" with
        | some v => rfl
        | none => exact (hfsN _).symm
      · refine layered_of_lookup ?_ hn3
        rw [lookup_notif_notify_on_block_completion]
        cases envParsed env home "PAR_CC_USAGE_NOTIFY_ON_BLOCK_COMPLETION"
          "notify_on_block_completion" with
        | some v => rfl
        | none => exact (hfsN _).symm
      · refine layered_of_lookup ?_ hn4
        rw [lookup_notif_cooldown_minutes]
        cases envParsed env home "PAR_CC_USAGE_COOLDOWN_MINUTES" "cooldown_minutes" with
        | some v => rfl
        | none => exact (hfsN _).symm

/-! ## Coercion evaluation helpers -/

theorem coerceStrList_mapS (l : List String) :
    coerceStrList (.list (l.map .s)) = .ok l := by
  show coerceStrList.go (l.map .s) = .ok l
  induction l with
  | nil => rfl
  | cons a t ih => simp [coerceStrList.go, ih, Except.map]

theorem coerceOptPathList_mapPath (l : List String) :
    coerceOptPathList (.list (l.map .path)) = .ok (some l) := by
  show (coerceOptPathList.go (l.map .path)).map some = .ok (some l)
  have : coerceOptPathList.go (l.map .path) = .ok l := by
    induction l with
    | nil => rfl
    | cons a t ih => simp [coerceOptPathList.go, coercePathElem, ih, Except.map]
  rw [this]
  rfl

theorem coerceOptPathList_mapS (l : List String) :
    coerceOptPathList (.list (l.map .s)) = .ok (some l) := by
  show (coerceOptPathList.go (l.map .s)).map some = .ok (some l)
  have : coerceOptPathList.go (l.map .s) = .ok l := by
    induction l with
    | nil => rfl
    | cons a t ih => simp [coerceOptPathList.go, coercePathElem, ih, Except.map]
  rw [this]
  rfl

theorem coerceTimeFormat_value (tf : TimeFormat) :
    coerceTimeFormat (.s tf.value) = .ok tf := by
  cases tf <;> rfl

theorem coerceDisplayMode_value (dm : DisplayMode) :
    coerceDisplayMode (.s dm.value) = .ok dm := by
  cases dm <;> rfl

theorem coerceOptInt_val (o : Option Int) :
    coerceOptInt (optIntVal o) = .ok o := by
  cases o <;> rfl

theorem coerceOptStr_val (o : Option String) :
    coerceOptStr (optStrVal o) = .ok o := by
  cases o <;> rfl

theorem splitTrim_eq_spec (s : String) : splitTrim s = splitTrimSpec s := by
  unfold splitTrim splitTrimSpec
  induction splitComma s.data with
  | nil => rfl
  | cons g gs ih =>
    cases hsp : stripPySpaces g with
    | nil =>
      simp [List.filter_cons, List.filterMap_cons, hsp]
      simpa using ih
    | cons a b =>
      simp [List.filter_cons, List.filterMap_cons, hsp]
      simpa using ih

/-! ## Claim C2 -/

/-- Claim C2: whenever the configuration file is absent, its existence
check raises, or reading/decoding/parsing it fails, `_load_config_file`
returns the empty mapping instead of propagating an error. -/
theorem claim_C2 (env : String → Option String) (home : String)
    (io : FileInput) (h : io.existsMain ≠ .yes ∨ io.readMain = none) :
    loadConfigFile env home io = [] := by
  unfold loadConfigFile
  cases hex : io.existsMain with
  | err => rfl
  | no => rfl
  | yes =>
    rcases h with h | h
    · exact absurd hex h
    · rw [h]

theorem claim_C2_witness :
    loadConfigFile noEnv "/home/u"
      { existsFirst := .yes, migratedLegacy := false, existsMain := .yes,
        readMain := none } = [] :=
  claim_C2 noEnv "/home/u" _ (Or.inr rfl)

/-! ## Claim C8 -/

/-- Claim C8: boolean coercion of an environment value never fails — it is
a total function — and returns `true` exactly for strings that
case-insensitively equal one of `true`, `1`, `yes`, `on`. -/
theorem claim_C8 (s : String) :
    parseBoolValue s = true ↔
      ∃ t ∈ (["true", "1", "yes", "on"] : List String),
        strLower s = strLower t := by
  unfold parseBoolValue
  constructor
  · intro h
    have hmem : strLower s ∈ (["true", "1", "yes", "on"] : List String) := by
      simpa using h
    simp only [List.mem_cons, List.mem_singleton, List.not_mem_nil, or_false]
      at hmem
    rcases hmem with h1 | h1 | h1 | h1
    · exact ⟨"true", by simp, by rw [h1]; decide⟩
    · exact ⟨"1", by simp, by rw [h1]; decide⟩
    · exact ⟨"yes", by simp, by rw [h1]; decide⟩
    · exact ⟨"on", by simp, by rw [h1]; decide⟩
  · rintro ⟨t, ht, he⟩
    have hmem : strLower s ∈ (["true", "1", "yes", "on"] : List String) := by
      simp only [List.mem_cons, List.mem_singleton, List.not_mem_nil, or_false]
        at ht
      rcases ht with rfl | rfl | rfl | rfl
      · rw [he]; decide
      · rw [he]; decide
      · rw [he]; decide
      · rw [he]; decide
    simpa using hmem

/-! ## Claim C4 -/

/-- Core of claims C4/C5: the `CLAUDE_CONFIG_DIR` override determines
`projects_dirs` outright. -/
theorem resolve_claude_dirs {env : String → Option String} {home : String}
    {fileMap : List (String × Value)} {cfg : Config} {cd : String}
    (hcd : envTruthy env "CLAUDE_CONFIG_DIR" = some cd)
    (hok : resolveConfig env home fileMap = .ok cfg) :
    cfg.projects_dirs = some (splitTrim cd) := by
  obtain ⟨m3, m4, hd, hn, hval⟩ := resolveConfig_ok_elim hok
  obtain ⟨-, hq2, -⟩ := validateConfig_ok_proj hval
  have hlk : lookupKey m4 "projects_dirs"
      = some (.list ((splitTrim cd).map .path)) := by
    rw [(applyNested_ok_lookup_ne (by decide) hn).trans
        (applyNested_ok_lookup_ne (by decide) hd),
      lookup_applyFlat_notMem (by decide), lookup_claude_target, hcd]
  have h2 := getField_ok_some hlk hq2
  rw [coerceOptPathList_mapPath] at h2
  rw [← Except.ok.inj h2]

/-- Claim C4: whenever `CLAUDE_CONFIG_DIR` is set non-empty, the resolved
`projects_dirs` equals that string split on commas with trimmed segments and
empty segments dropped — for every environment and file mapping, so the
override beats any file value and cannot be shadowed by the generic
per-field override of the singular `projects_dir`. -/
theorem claim_C4 (env : String → Option String) (home : String)
    (fileMap : List (String × Value)) (cfg : Config) (cd : String)
    (hcd : envTruthy env "CLAUDE_CONFIG_DIR" = some cd)
    (hok : resolveConfig env home fileMap = .ok cfg) :
    cfg.projects_dirs = some (splitTrimSpec cd) := by
  rw [resolve_claude_dirs hcd hok, splitTrim_eq_spec]

theorem claim_C4_witness :
    ({ defaultConfig "/home/u" with
        projects_dirs := some ["~/a", "/x/b"] } : Config).projects_dirs
      = some (splitTrimSpec "~/a, /x/b") :=
  claim_C4 (fun v => if v = "CLAUDE_CONFIG_DIR" then some "~/a, /x/b" else none)
    "/home/u" [("projects_dirs", .list [.path "/old"])]
    { defaultConfig "/home/u" with projects_dirs := some ["~/a", "/x/b"] }
    "~/a, /x/b" (by decide) (by decide)

theorem claim_C1_witness :
    layered (envParsed
        (fun v => if v = "PAR_CC_USAGE_POLLING_INTERVAL" then some "20" else none)
        "/home/u" "PAR_CC_USAGE_POLLING_INTERVAL" "polling_interval")
      (lookupKey [("polling_interval", Value.i 10)] "polling_interval")
      coerceInt 5 = .ok (20 : Int) ∧
    layered (envParsed
        (fun v => if v = "PAR_CC_USAGE_POLLING_INTERVAL" then some "20" else none)
        "/home/u" "PAR_CC_USAGE_TIMEZONE" "timezone")
      (lookupKey [("polling_interval", Value.i 10)] "timezone")
      coerceStr "America/Los_Angeles" = .ok "America/Los_Angeles" := by
  have h := claim_C1
    (fun v => if v = "PAR_CC_USAGE_POLLING_INTERVAL" then some "20" else none)
    "/home/u" [("polling_interval", Value.i 10)]
    { defaultConfig "/home/u" with polling_interval := 20 } (by decide)
  exact ⟨h.2.2.1, h.2.2.2.1⟩

/-! ## Hard-failure characterization of schema validation -/

theorem ok_bind {α β : Type} (a : α) (f : α → Except String β) :
    (Except.ok a >>= f) = f a := rfl

theorem getSection_error_elim {m : List (String × Value)} {k : String}
    {valSec : List (String × Value) → Except String α} {d : α} {e : String}
    (h : getSection m k valSec d = .error e) :
    (∃ v, lookupKey m k = some v ∧ ∀ l, v ≠ .map l) ∨
    (∃ sm e', lookupKey m k = some (.map sm) ∧ valSec sm = .error e') := by
  cases hl : lookupKey m k with
  | none => rw [getSection_eq_none valSec d hl] at h; cases h
  | some v =>
    cases v with
    | map sm =>
      rw [getSection_eq_map valSec d hl] at h
      cases hv : valSec sm with
      | ok a => rw [hv] at h; simp [mapErr] at h
      | error e' => exact Or.inr ⟨sm, e', rfl, hv⟩
    | s str => exact Or.inl ⟨.s str, rfl, by intro l hc; cases hc⟩
    | i n => exact Or.inl ⟨.i n, rfl, by intro l hc; cases hc⟩
    | b bv => exact Or.inl ⟨.b bv, rfl, by intro l hc; cases hc⟩
    | null => exact Or.inl ⟨.null, rfl, by intro l hc; cases hc⟩
    | path p => exact Or.inl ⟨.path p, rfl, by intro l hc; cases hc⟩
    | list l' => exact Or.inl ⟨.list l', rfl, by intro l hc; cases hc⟩

theorem fieldViolation_no_ok {m : List (String × Value)} {k : String}
    {c : Value → Except String α} {d a : α}
    (hv : fieldViolation m k c) (hok : getField m k c d = .ok a) : False := by
  obtain ⟨v, e, hl, hc⟩ := hv
  have := getField_ok_some hl hok
  rw [hc] at this
  cases this

theorem validateDisplayMap_error_imp {m : List (String × Value)} {e : String}
    (h : validateDisplayMap m = .error e) : displayViolation m := by
  unfold validateDisplayMap at h
  cases h1 : getField m "show_progress_bars" coerceBool true with
  | error e1 => exact Or.inl (getField_error_elim h1)
  | ok a1 =>
  rw [h1, ok_bind] at h
  cases h2 : getField m "show_active_sessions" coerceBool false with
  | error e2 => exact Or.inr (Or.inl (getField_error_elim h2))
  | ok a2 =>
  rw [h2, ok_bind] at h
  cases h3 : getField m "update_in_place" coerceBool true with
  | error e3 => exact Or.inr (Or.inr (Or.inl (getField_error_elim h3)))
  | ok a3 =>
  rw [h3, ok_bind] at h
  cases h4 : getField m "refresh_interval" coerceInt 1 with
  | error e4 => exact Or.inr (Or.inr (Or.inr (Or.inl (getField_error_elim h4))))
  | ok a4 =>
  rw [h4, ok_bind] at h
  cases h5 : getField m "time_format" coerceTimeFormat .twentyFourHour with
  | error e5 =>
    exact Or.inr (Or.inr (Or.inr (Or.inr (Or.inl (getField_error_elim h5)))))
  | ok a5 =>
  rw [h5, ok_bind] at h
  cases h6 : getField m "project_name_prefixes" coerceStrList
      ["-Users-", "-home-"] with
  | error e6 =>
    exact Or.inr (Or.inr (Or.inr (Or.inr (Or.inr (Or.inl
      (getField_error_elim h6))))))
  | ok a6 =>
  rw [h6, ok_bind] at h
  cases h7 : getField m "aggregate_by_project" coerceBool true with
  | error e7 =>
    exact Or.inr (Or.inr (Or.inr (Or.inr (Or.inr (Or.inr (Or.inl
      (getField_error_elim h7)))))))
  | ok a7 =>
  rw [h7, ok_bind] at h
  cases h8 : getField m "show_tool_usage" coerceBool false with
  | error e8 =>
    exact Or.inr (Or.inr (Or.inr (Or.inr (Or.inr (Or.inr (Or.inr (Or.inl
      (getField_error_elim h8))))))))
  | ok a8 =>
  rw [h8, ok_bind] at h
  cases h9 : getField m "display_mode" coerceDisplayMode .normal with
  | error e9 =>
    exact Or.inr (Or.inr (Or.inr (Or.inr (Or.inr (Or.inr (Or.inr (Or.inr
      (Or.inl (getField_error_elim h9)))))))))
  | ok a9 =>
  rw [h9, ok_bind] at h
  cases h10 : getField m "show_pricing" coerceBool false with
  | error e10 =>
    exact Or.inr (Or.inr (Or.inr (Or.inr (Or.inr (Or.inr (Or.inr (Or.inr
      (Or.inr (Or.inl (getField_error_elim h10))))))))))
  | ok a10 =>
  rw [h10, ok_bind] at h
  cases h11 : getField m "theme" coerceTheme .defaultTheme with
  | error e11 =>
    exact Or.inr (Or.inr (Or.inr (Or.inr (Or.inr (Or.inr (Or.inr (Or.inr
      (Or.inr (Or.inr (getField_error_elim h11))))))))))
  | ok a11 =>
  rw [h11, ok_bind] at h
  cases h

theorem validateNotifMap_error_imp {m : List (String × Value)} {e : String}
    (h : validateNotifMap m = .error e) : notifViolation m := by
  unfold validateNotifMap at h
  cases h1 : getField m "discord_webhook_url" coerceOptStr none with
  | error e1 => exact Or.inl (getField_error_elim h1)
  | ok a1 =>
  rw [h1, ok_bind] at h
  cases h2 : getField m "slack_webhook_url" coerceOptStr none with
  | error e2 => exact Or.inr (Or.inl (getField_error_elim h2))
  | ok a2 =>
  rw [h2, ok_bind] at h
  cases h3 : getField m "notify_on_block_completion" coerceBool true with
  | error e3 => exact Or.inr (Or.inr (Or.inl (getField_error_elim h3)))
  | ok a3 =>
  rw [h3, ok_bind] at h
  cases h4 : getField m "cooldown_minutes" coerceInt 5 with
  | error e4 => exact Or.inr (Or.inr (Or.inr (getField_error_elim h4)))
  | ok a4 =>
  rw [h4, ok_bind] at h
  cases h

theorem displayViolation_no_ok {m : List (String × Value)} {dc : DisplayConfig}
    (hv : displayViolation m) (hok : validateDisplayMap m = .ok dc) : False := by
  obtain ⟨p1, p2, p3, p4, p5, p6, p7, p8, p9, p10, p11⟩ :=
    validateDisplayMap_ok_proj hok
  rcases hv with h | h | h | h | h | h | h | h | h | h | h
  · exact fieldViolation_no_ok h p1
  · exact fieldViolation_no_ok h p2
  · exact fieldViolation_no_ok h p3
  · exact fieldViolation_no_ok h p4
  · exact fieldViolation_no_ok h p5
  · exact fieldViolation_no_ok h p6
  · exact fieldViolation_no_ok h p7
  · exact fieldViolation_no_ok h p8
  · exact fieldViolation_no_ok h p9
  · exact fieldViolation_no_ok h p10
  · exact fieldViolation_no_ok h p11

theorem notifViolation_no_ok {m : List (String × Value)}
    {nc : NotificationConfig}
    (hv : notifViolation m) (hok : validateNotifMap m = .ok nc) : False := by
  obtain ⟨p1, p2, p3, p4⟩ := validateNotifMap_ok_proj hok
  rcases hv with h | h | h | h
  · exact fieldViolation_no_ok h p1
  · exact fieldViolation_no_ok h p2
  · exact fieldViolation_no_ok h p3
  · exact fieldViolation_no_ok h p4

theorem sectionViolation_no_ok {m : List (String × Value)} {name : String}
    {sub : List (String × Value) → Prop}
    {valSec : List (String × Value) → Except String α} {d a : α}
    (hsub : ∀ l dc, sub l → valSec l = .ok dc → False)
    (hv : sectionViolation m name sub)
    (hok : getSection m name valSec d = .ok a) : False := by
  rcases hv with ⟨v, hl, hnm⟩ | ⟨l, hl, hs⟩
  · rw [getSection_eq_scalar valSec d hl hnm] at hok
    cases hok
  · rw [getSection_eq_map valSec d hl] at hok
    exact hsub l a hs (mapErr_ok.mp hok)

theorem validateConfig_error_imp {home : String} {m : List (String × Value)}
    {e : String} (h : validateConfig home m = .error e) : topViolation m := by
  unfold validateConfig at h
  cases h1 : getField m "projects_dir" coercePath (defaultProjectsDir home) with
  | error e1 => exact Or.inl (getField_error_elim h1)
  | ok a1 =>
  rw [h1, ok_bind] at h
  cases h2 : getField m "projects_dirs" coerceOptPathList none with
  | error e2 => exact Or.inr (Or.inl (getField_error_elim h2))
  | ok a2 =>
  rw [h2, ok_bind] at h
  cases h3 : getField m "polling_interval" coerceInt 5 with
  | error e3 => exact Or.inr (Or.inr (Or.inl (getField_error_elim h3)))
  | ok a3 =>
  rw [h3, ok_bind] at h
  cases h4 : getField m "timezone" coerceStr "America/Los_Angeles" with
  | error e4 => exact Or.inr (Or.inr (Or.inr (Or.inl (getField_error_elim h4))))
  | ok a4 =>
  rw [h4, ok_bind] at h
  cases h5 : getField m "token_limit" coerceOptInt none with
  | error e5 =>
    exact Or.inr (Or.inr (Or.inr (Or.inr (Or.inl (getField_error_elim h5)))))
  | ok a5 =>
  rw [h5, ok_bind] at h
  cases h6 : getField m "cache_dir" coercePath (get_cache_dir home) with
  | error e6 =>
    exact Or.inr (Or.inr (Or.inr (Or.inr (Or.inr (Or.inl
      (getField_error_elim h6))))))
  | ok a6 =>
  rw [h6, ok_bind] at h
  cases h7 : getField m "disable_cache" coerceBool false with
  | error e7 =>
    exact Or.inr (Or.inr (Or.inr (Or.inr (Or.inr (Or.inr (Or.inl
      (getField_error_elim h7)))))))
  | ok a7 =>
  rw [h7, ok_bind] at h
  cases h8 : getSection m "display" validateDisplayMap defaultDisplayConfig with
  | error e8 =>
    refine Or.inr (Or.inr (Or.inr (Or.inr (Or.inr (Or.inr (Or.inr (Or.inl
      ?_)))))))
    rcases getSection_error_elim h8 with hcase | ⟨sm, e', hl, he'⟩
    · exact Or.inl hcase
    · exact Or.inr ⟨sm, hl, validateDisplayMap_error_imp he'⟩
  | ok a8 =>
  rw [h8, ok_bind] at h
  cases h9 : getSection m "notifications" validateNotifMap
      defaultNotificationConfig with
  | error e9 =>
    refine Or.inr (Or.inr (Or.inr (Or.inr (Or.inr (Or.inr (Or.inr (Or.inr
      (Or.inl ?_))))))))
    rcases getSection_error_elim h9 with hcase | ⟨sm, e', hl, he'⟩
    · exact Or.inl hcase
    · exact Or.inr ⟨sm, hl, validateNotifMap_error_imp he'⟩
  | ok a9 =>
  rw [h9, ok_bind] at h
  cases h10 : getField m "recent_activity_window_hours" coerceInt 5 with
  | error e10 =>
    exact Or.inr (Or.inr (Or.inr (Or.inr (Or.inr (Or.inr (Or.inr (Or.inr
      (Or.inr (getField_error_elim h10)))))))))
  | ok a10 =>
  rw [h10, ok_bind] at h
  cases h

theorem topViolation_no_ok {home : String} {m : List (String × Value)}
    {cfg : Config} (hv : topViolation m)
    (hok : validateConfig home m = .ok cfg) : False := by
  obtain ⟨p1, p2, p3, p4, p5, p6, p7, p8, p9, p10⟩ := validateConfig_ok_proj hok
  rcases hv with h | h | h | h | h | h | h | h | h | h
  · exact fieldViolation_no_ok h p1
  · exact fieldViolation_no_ok h p2
  · exact fieldViolation_no_ok h p3
  · exact fieldViolation_no_ok h p4
  · exact fieldViolation_no_ok h p5
  · exact fieldViolation_no_ok h p6
  · exact fieldViolation_no_ok h p7
  · exact sectionViolation_no_ok
      (fun l dc hs hokl => displayViolation_no_ok hs hokl) h p8
  · exact sectionViolation_no_ok
      (fun l nc hs hokl => notifViolation_no_ok hs hokl) h p9
  · exact fieldViolation_no_ok h p10

theorem validateConfig_error_iff (home : String) (m : List (String × Value)) :
    (∃ e, validateConfig home m = .error e) ↔ topViolation m := by
  constructor
  · rintro ⟨e, h⟩
    exact validateConfig_error_imp h
  · intro hv
    cases hval : validateConfig home m with
    | error e => exact ⟨e, rfl⟩
    | ok cfg => exact absurd hval (fun hc => topViolation_no_ok hv hc)

/-! ## Claim C3 -/

/-- Claim C3: schema validation of the merged mapping ignores unknown keys
(it depends only on the known keys' bindings), fills missing keys with
schema defaults, fails — with an error naming the offending field, which
propagates through `load_config` — exactly when some merged value violates
its field's closed type, and never substitutes a value for an invalid
one. -/
theorem claim_C3 (home : String) (m₁ m₂ : List (String × Value))
    (hagree : ∀ k ∈ knownTopKeys, lookupKey m₁ k = lookupKey m₂ k) :
    validateConfig home m₁ = validateConfig home m₂ ∧
    validateConfig home [] = .ok (defaultConfig home) ∧
    ((∃ e, validateConfig home m₁ = .error e) ↔ topViolation m₁) ∧
    load_config noEnv home
      (mkFileInput [("display", .map [("theme", .s "neon")])])
      = .error "display.theme: invalid theme" := by
  refine ⟨?_, ?_, validateConfig_error_iff home m₁, ?_⟩
  · unfold validateConfig
    rw [getField_congr coercePath (defaultProjectsDir home)
        (hagree "projects_dir" (by decide)),
      getField_congr coerceOptPathList none (hagree "projects_dirs" (by decide)),
      getField_congr coerceInt 5 (hagree "polling_interval" (by decide)),
      getField_congr coerceStr "America/Los_Angeles"
        (hagree "timezone" (by decide)),
      getField_congr coerceOptInt none (hagree "token_limit" (by decide)),
      getField_congr coercePath (get_cache_dir home)
        (hagree "cache_dir" (by decide)),
      getField_congr coerceBool false (hagree "disable_cache" (by decide)),
      getSection_congr validateDisplayMap defaultDisplayConfig
        (hagree "display" (by decide)),
      getSection_congr validateNotifMap defaultNotificationConfig
        (hagree "notifications" (by decide)),
      getField_congr coerceInt 5
        (hagree "recent_activity_window_hours" (by decide))]
  · rfl
  · rfl

theorem claim_C3_witness :
    (validateConfig "/h" [("display", .map [("theme", .s "neon")])]
        = validateConfig "/h"
          [("display", .map [("theme", .s "neon")]), ("zzz_unknown", .s "x")] ∧
      validateConfig "/h" [] = .ok (defaultConfig "/h") ∧
      ((∃ e, validateConfig "/h" [("display", .map [("theme", .s "neon")])]
          = .error e) ↔
        topViolation [("display", .map [("theme", .s "neon")])]) ∧
      load_config noEnv "/h"
        (mkFileInput [("display", .map [("theme", .s "neon")])])
        = .error "display.theme: invalid theme") :=
  claim_C3 "/h" [("display", .map [("theme", .s "neon")])]
    [("display", .map [("theme", .s "neon")]), ("zzz_unknown", .s "x")]
    (by intro k hk; fin_cases hk <;> rfl)

/-! ## Claim C6 -/

theorem dedupValid_eq_keepFirst (fs : DirFS) (l : List String) :
    ∀ seen, dedupValid fs seen l = dedupKeepFirst fs seen (l.filter fs.isDirOn) := by
  induction l with
  | nil => intro seen; rfl
  | cons p rest ih =>
    intro seen
    by_cases hdir : fs.isDirOn p = true
    · by_cases hseen : fs.resolve p ∈ seen
      · simp [dedupValid, dedupKeepFirst, List.filter_cons, hdir, hseen, ih]
      · simp [dedupValid, dedupKeepFirst, List.filter_cons, hdir, hseen, ih]
    · simp [dedupValid, List.filter_cons, hdir, ih]

theorem dedupValid_isDir (fs : DirFS) (l : List String) :
    ∀ seen, ∀ p ∈ dedupValid fs seen l, fs.isDirOn p = true := by
  induction l with
  | nil => intro seen p hp; simp [dedupValid] at hp
  | cons q rest ih =>
    intro seen p hp
    unfold dedupValid at hp
    by_cases hc : fs.resolve q ∉ seen ∧ fs.isDirOn q = true
    · rw [if_pos hc] at hp
      rcases List.mem_cons.mp hp with rfl | hp'
      · exact hc.2
      · exact ih _ p hp'
    · rw [if_neg hc] at hp
      exact ih _ p hp

theorem dedupValid_not_seen (fs : DirFS) (l : List String) :
    ∀ seen, ∀ p ∈ dedupValid fs seen l, fs.resolve p ∉ seen := by
  induction l with
  | nil => intro seen p hp; simp [dedupValid] at hp
  | cons q rest ih =>
    intro seen p hp
    unfold dedupValid at hp
    by_cases hc : fs.resolve q ∉ seen ∧ fs.isDirOn q = true
    · rw [if_pos hc] at hp
      rcases List.mem_cons.mp hp with rfl | hp'
      · exact hc.1
      · intro hmem
        exact ih _ p hp' (List.mem_cons_of_mem _ hmem)
    · rw [if_neg hc] at hp
      exact ih _ p hp

theorem dedupValid_nodup (fs : DirFS) (l : List String) :
    ∀ seen, ((dedupValid fs seen l).map fs.resolve).Nodup := by
  induction l with
  | nil => intro seen; simp [dedupValid]
  | cons q rest ih =>
    intro seen
    unfold dedupValid
    by_cases hc : fs.resolve q ∉ seen ∧ fs.isDirOn q = true
    · rw [if_pos hc]
      simp only [List.map_cons, List.nodup_cons]
      refine ⟨?_, ih _⟩
      intro hmem
      obtain ⟨x, hx, hres⟩ := List.mem_map.mp hmem
      have := dedupValid_not_seen fs rest _ x hx
      exact this (by rw [hres]; exact List.mem_cons_self _ _)
    · rw [if_neg hc]
      exact ih _

/-- Claim C6: `get_claude_paths` selects candidates exactly as the claim
describes — the non-empty multi-directory list verbatim, else existing
OS-default directories, else the singular `projects_dir` unchecked — and
equals first-occurrence deduplication by canonically resolved path of the
existence-filtered candidates, so the result holds only existing
directories and each canonical path at most once (and may be empty). -/
theorem claim_C6 (fs : DirFS) (home : String) (cfg : Config) :
    get_claude_paths fs home cfg =
      dedupKeepFirst fs [] ((claimCandidates fs home cfg).filter fs.isDirOn) ∧
    ((get_claude_paths fs home cfg).map fs.resolve).Nodup ∧
    ∀ p ∈ get_claude_paths fs home cfg, fs.isDirOn p = true := by
  refine ⟨?_, ?_, ?_⟩
  · unfold get_claude_paths claimCandidates
    exact dedupValid_eq_keepFirst fs _ []
  · unfold get_claude_paths
    exact dedupValid_nodup fs _ []
  · unfold get_claude_paths
    exact dedupValid_isDir fs _ []

/-! ## Section projection helpers for the resolution pipeline -/

theorem resolve_display_proj {env : String → Option String} {home : String}
    {fileMap : List (String × Value)} {cfg : Config}
    (hok : resolveConfig env home fileMap = .ok cfg) :
    ∃ l, (∀ k, fileSec fileMap "display" k = lookupKey l k) ∧
      validateDisplayMap (applyFlat env home l displayEnvPairs)
        = .ok cfg.display := by
  obtain ⟨m3, m4, hd, hn, hval⟩ := resolveConfig_ok_elim hok
  obtain ⟨-, -, -, -, -, -, -, hqd, -, -⟩ := validateConfig_ok_proj hval
  have hl34 : lookupKey m4 "display" = lookupKey m3 "display" :=
    applyNested_ok_lookup_ne (by decide) hn
  have hgd3 :=
    (getSection_congr validateDisplayMap defaultDisplayConfig hl34).symm.trans hqd
  cases hbaseD : secBase (applyFlat env home (applyClaudeOverride env fileMap)
      topLevelEnvPairs) "display" with
  | scalar v =>
    exfalso
    have hm3 := applyNested_ok_scalar hbaseD hd
    obtain ⟨hlv, hnm⟩ := secBase_scalar_elim hbaseD
    rw [hm3, getSection_eq_scalar validateDisplayMap defaultDisplayConfig hlv hnm]
      at hgd3
    simp at hgd3
  | dict l =>
    have hgs := getSection_after_nested validateDisplayMap hbaseD hd
      validateDisplayMap_nil
    have hsbD : secBase fileMap "display" = .dict l :=
      (secBase_congr (lookup_top_other (by decide) (by decide) fileMap)).symm.trans
        hbaseD
    exact ⟨l, fun k => fileSec_of_dict hsbD k, mapErr_ok.mp (hgs.symm.trans hgd3)⟩

theorem resolve_notif_proj {env : String → Option String} {home : String}
    {fileMap : List (String × Value)} {cfg : Config}
    (hok : resolveConfig env home fileMap = .ok cfg) :
    ∃ l, (∀ k, fileSec fileMap "notifications" k = lookupKey l k) ∧
      validateNotifMap (applyFlat env home l notificationEnvPairs)
        = .ok cfg.notifications := by
  obtain ⟨m3, m4, hd, hn, hval⟩ := resolveConfig_ok_elim hok
  obtain ⟨-, -, -, -, -, -, -, -, hqn, -⟩ := validateConfig_ok_proj hval
  cases hbaseN : secBase m3 "notifications" with
  | scalar v =>
    exfalso
    have hm4 := applyNested_ok_scalar hbaseN hn
    obtain ⟨hlv, hnm⟩ := secBase_scalar_elim hbaseN
    rw [hm4, getSection_eq_scalar validateNotifMap defaultNotificationConfig
      hlv hnm] at hqn
    simp at hqn
  | dict lN =>
    have hgsN := getSection_after_nested validateNotifMap hbaseN hn
      validateNotifMap_nil
    have hlN : lookupKey m3 "notifications" = lookupKey fileMap "notifications" :=
      (applyNested_ok_lookup_ne (by decide) hd).trans
        (lookup_top_other (by decide) (by decide) fileMap)
    have hsbN : secBase fileMap "notifications" = .dict lN :=
      (secBase_congr hlN).symm.trans hbaseN
    exact ⟨lN, fun k => fileSec_of_dict hsbN k, mapErr_ok.mp (hgsN.symm.trans hqn)⟩

/-! ## Numeric-string characterization (claim C9) -/

theorem isDigit_ne_underscore {c : Char} (h : c.isDigit = true) : c ≠ '_' := by
  intro hc
  rw [hc] at h
  exact absurd h (by decide)

theorem parseDigits_some_chars {l : List Char} {acc n : Nat}
    (h : parseDigits l acc = some n) :
    l.all (fun c => c.isDigit || c = '_') = true ∧
    noAdjacentUnderscores l = true ∧
    (match l.getLast? with | none => True | some c => c.isDigit = true) := by
  induction l, acc using parseDigits.induct with
  | case1 acc => exact ⟨rfl, rfl, trivial⟩
  | case2 acc d rest' hd ih1 =>
    rw [show parseDigits ('_' :: d :: rest') acc
        = parseDigits rest' (10 * acc + digitVal d) by simp [parseDigits, hd]] at h
    obtain ⟨hall, hadj, hlast⟩ := ih1 h
    refine ⟨by simp [List.all_cons, hd, hall], ?_, ?_⟩
    · cases rest' with
      | nil => simp [noAdjacentUnderscores, isDigit_ne_underscore hd]
      | cons b t =>
        simp only [noAdjacentUnderscores] at hadj ⊢
        simp [isDigit_ne_underscore hd, hadj]
    · rw [List.getLast?_cons_cons]
      cases rest' with
      | nil => simpa using hd
      | cons b t =>
        rw [List.getLast?_cons_cons]
        simpa using hlast
  | case3 acc d rest' hdneg =>
    rw [show parseDigits ('_' :: d :: rest') acc = none by
      simp [parseDigits, hdneg]] at h
    cases h
  | case4 acc =>
    rw [show parseDigits ['_'] acc = none by simp [parseDigits]] at h
    cases h
  | case5 c rest acc hne hd ih1 =>
    rw [show parseDigits (c :: rest) acc
        = parseDigits rest (10 * acc + digitVal c) by
        rw [parseDigits.eq_def]; dsimp only; rw [if_neg hne, if_pos hd]] at h
    obtain ⟨hall, hadj, hlast⟩ := ih1 h
    refine ⟨by simp [List.all_cons, hd, hall], ?_, ?_⟩
    · cases rest with
      | nil => simp [noAdjacentUnderscores]
      | cons b t =>
        simp only [noAdjacentUnderscores] at hadj ⊢
        simp [hne, hadj]
    · cases rest with
      | nil => simpa using hd
      | cons b t =>
        rw [List.getLast?_cons_cons]
        simpa using hlast
  | case6 c rest acc hne hdneg =>
    rw [show parseDigits (c :: rest) acc = none by
      rw [parseDigits.eq_def]; dsimp only; rw [if_neg hne, if_neg hdneg]] at h
    cases h

theorem intCore_some_numeric {neg : Bool} {ds : List Char} {n : Int}
    (h : intCore neg ds = some n) : numericCore ds = true := by
  cases ds with
  | nil => cases h
  | cons d rest =>
    by_cases hd : d.isDigit = true
    · cases hpd : parseDigits rest (digitVal d) with
      | none =>
        rw [show intCore neg (d :: rest) = none by simp [intCore, hd, hpd]] at h
        cases h
      | some m =>
        obtain ⟨hall, hadj, hlast⟩ := parseDigits_some_chars hpd
        unfold numericCore
        simp only [List.isEmpty_cons, List.all_cons, List.head?_cons,
          Bool.not_false, Bool.and_eq_true, Bool.or_eq_true]
        refine ⟨⟨⟨⟨trivial, Or.inl hd, by simpa using hall⟩, hd⟩, ?_⟩, ?_⟩
        · cases rest with
          | nil => simpa using hd
          | cons b t =>
            rw [List.getLast?_cons_cons]
            revert hlast
            cases hgl : (b :: t).getLast? with
            | none => intro hlast; exact absurd hgl (by simp)
            | some c => intro hlast; simpa using hlast
        · cases rest with
          | nil => rfl
          | cons b t =>
            simp only [noAdjacentUnderscores] at hadj ⊢
            simp [isDigit_ne_underscore hd, hadj]
    · rw [show intCore neg (d :: rest) = none by simp [intCore, hd]] at h
      cases h

theorem pythonStrToInt_some_isNumeric {s : String} {n : Int}
    (h : pythonStrToInt s = some n) : isNumericStr s = true := by
  unfold pythonStrToInt at h
  unfold isNumericStr
  exact intCore_some_numeric h

/-! ## Claim C9 -/

/-- Claim C9: a non-numeric string in an integer-field environment variable
makes integer coercion return absent, so that single override is dropped
and the field keeps its file-or-default value, while other overrides (here
the timezone) still apply.  Non-numeric is the spec-side `isNumericStr`
test; the first conjunct shows coercion is absent on every such string. -/
theorem claim_C9 (env : String → Option String) (home : String)
    (fileMap : List (String × Value)) (cfg : Config) (s t : String)
    (hs : isNumericStr s = false)
    (h1 : envTruthy env "PAR_CC_USAGE_POLLING_INTERVAL" = some s)
    (h2 : envTruthy env "PAR_CC_USAGE_TOKEN_LIMIT" = some s)
    (h3 : envTruthy env "PAR_CC_USAGE_RECENT_ACTIVITY_WINDOW_HOURS" = some s)
    (h4 : envTruthy env "PAR_CC_USAGE_REFRESH_INTERVAL" = some s)
    (h5 : envTruthy env "PAR_CC_USAGE_COOLDOWN_MINUTES" = some s)
    (h6 : envTruthy env "PAR_CC_USAGE_TIMEZONE" = some t)
    (hok : resolveConfig env home fileMap = .ok cfg) :
    parseIntValue s = none ∧
    layered none (lookupKey fileMap "polling_interval") coerceInt 5
      = .ok cfg.polling_interval ∧
    layered none (lookupKey fileMap "token_limit") coerceOptInt none
      = .ok cfg.token_limit ∧
    layered none (lookupKey fileMap "recent_activity_window_hours") coerceInt 5
      = .ok cfg.recent_activity_window_hours ∧
    layered none (fileSec fileMap "display" "refresh_interval") coerceInt 1
      = .ok cfg.display.refresh_interval ∧
    layered none (fileSec fileMap "notifications" "cooldown_minutes") coerceInt 5
      = .ok cfg.notifications.cooldown_minutes ∧
    cfg.timezone = t := by
  have hnone : parseIntValue s = none := by
    cases hv : pythonStrToInt s with
    | none => exact hv
    | some n => rw [pythonStrToInt_some_isNumeric hv] at hs; cases hs
  obtain ⟨m3, m4, hd, hn, hval⟩ := resolveConfig_ok_elim hok
  obtain ⟨-, -, hq3, hq4, hq5, -, -, -, -, hq8⟩ := validateConfig_ok_proj hval
  have htop : ∀ k : String, k ≠ "display" → k ≠ "notifications" →
      lookupKey m4 k =
        lookupKey (applyFlat env home (applyClaudeOverride env fileMap)
          topLevelEnvPairs) k :=
    fun k ha hb =>
      (applyNested_ok_lookup_ne hb hn).trans (applyNested_ok_lookup_ne ha hd)
  have hep1 : envParsed env home "PAR_CC_USAGE_POLLING_INTERVAL"
      "polling_interval" = none := by
    unfold envParsed
    rw [h1]
    show (parseIntValue s).map Value.i = none
    rw [hnone]
    rfl
  have hep2 : envParsed env home "PAR_CC_USAGE_TOKEN_LIMIT" "token_limit"
      = none := by
    unfold envParsed
    rw [h2]
    show (parseIntValue s).map Value.i = none
    rw [hnone]
    rfl
  have hep3 : envParsed env home "PAR_CC_USAGE_RECENT_ACTIVITY_WINDOW_HOURS"
      "recent_activity_window_hours" = none := by
    unfold envParsed
    rw [h3]
    show (parseIntValue s).map Value.i = none
    rw [hnone]
    rfl
  have hep4 : envParsed env home "PAR_CC_USAGE_REFRESH_INTERVAL"
      "refresh_interval" = none := by
    unfold envParsed
    rw [h4]
    show (parseIntValue s).map Value.i = none
    rw [hnone]
    rfl
  have hep5 : envParsed env home "PAR_CC_USAGE_COOLDOWN_MINUTES"
      "cooldown_minutes" = none := by
    unfold envParsed
    rw [h5]
    show (parseIntValue s).map Value.i = none
    rw [hnone]
    rfl
  have het : envParsed env home "PAR_CC_USAGE_TIMEZONE" "timezone"
      = some (.s t) := by
    unfold envParsed
    rw [h6]
    rfl
  refine ⟨hnone, ?_, ?_, ?_, ?_, ?_, ?_⟩
  · refine layered_of_lookup ?_ hq3
    rw [htop "polling_interval" (by decide) (by decide),
      lookup_top_polling_interval, hep1, lookup_claude_ne (by decide)]
  · refine layered_of_lookup ?_ hq5
    rw [htop "token_limit" (by decide) (by decide),
      lookup_top_token_limit, hep2, lookup_claude_ne (by decide)]
  · refine layered_of_lookup ?_ hq8
    rw [htop "recent_activity_window_hours" (by decide) (by decide),
      lookup_top_recent_activity_window_hours, hep3,
      lookup_claude_ne (by decide)]
  · obtain ⟨dl, hfsD, hvd⟩ := resolve_display_proj hok
    obtain ⟨-, -, -, hd4, -⟩ := validateDisplayMap_ok_proj hvd
    refine layered_of_lookup ?_ hd4
    rw [lookup_disp_refresh_interval, hep4, hfsD "refresh_interval"]
  · obtain ⟨nl, hfsN, hvn⟩ := resolve_notif_proj hok
    obtain ⟨-, -, -, hn4⟩ := validateNotifMap_ok_proj hvn
    refine layered_of_lookup ?_ hn4
    rw [lookup_notif_cooldown_minutes, hep5, hfsN "cooldown_minutes"]
  · have hik : lookupKey m4 "timezone" = some (.s t) := by
      rw [htop "timezone" (by decide) (by decide), lookup_top_timezone, het]
    have hc := getField_ok_some hik hq4
    have hc2 : (Except.ok t : Except String String) = .ok cfg.timezone := hc
    exact (Except.ok.inj hc2).symm

theorem claim_C9_witness :
    parseIntValue "abc" = none ∧
    layered none (lookupKey [("polling_interval", Value.i 10)]
      "polling_interval") coerceInt 5 = .ok (10 : Int) ∧
    ({ defaultConfig "/home/u" with polling_interval := 10, timezone := "UTC" } : Config).timezone = "UTC" := by
  have h := claim_C9
    (fun v =>
      if v = "PAR_CC_USAGE_TIMEZONE" then some "UTC"
      else if v = "PAR_CC_USAGE_POLLING_INTERVAL" then some "abc"
      else if v = "PAR_CC_USAGE_TOKEN_LIMIT" then some "abc"
      else if v = "PAR_CC_USAGE_RECENT_ACTIVITY_WINDOW_HOURS" then some "abc"
      else if v = "PAR_CC_USAGE_REFRESH_INTERVAL" then some "abc"
      else if v = "PAR_CC_USAGE_COOLDOWN_MINUTES" then some "abc"
      else none)
    "/home/u" [("polling_interval", Value.i 10)]
    { defaultConfig "/home/u" with polling_interval := 10, timezone := "UTC" }
    "abc" "UTC" (by decide) (by decide) (by decide) (by decide) (by decide)
    (by decide) (by decide) (by decide)
  exact ⟨h.1, h.2.1, h.2.2.2.2.2.2⟩

/-! ## Resolution under an empty environment (round-trip machinery) -/

theorem applyClaude_noEnv (m : List (String × Value)) :
    applyClaudeOverride noEnv m = m := rfl

theorem applyFlat_noEnv (home : String) (pairs : List (String × String)) :
    ∀ m, applyFlat noEnv home m pairs = m := by
  induction pairs with
  | nil => intro m; rfl
  | cons p rest ih =>
    intro m
    rw [applyFlat_cons, show stepOne noEnv home m p = m from rfl]
    exact ih m

theorem applySecPairs_noEnv (home : String) (sv : SecVal)
    (pairs : List (String × String)) :
    applySecPairs noEnv home sv pairs = .ok sv := by
  induction pairs with
  | nil => rfl
  | cons p rest ih =>
    rw [show applySecPairs noEnv home sv (p :: rest)
        = applySecPairs noEnv home sv rest from rfl]
    exact ih

theorem applyNested_noEnv (home : String) (m : List (String × Value))
    (name : String) (pairs : List (String × String)) :
    applyNestedEnvOverrides noEnv home m name pairs = .ok m := by
  unfold applyNestedEnvOverrides
  rw [applySecPairs_noEnv, ok_bind]
  cases hbase : secBase m name with
  | scalar v => rfl
  | dict l =>
    cases hl : l with
    | nil => rfl
    | cons q rest =>
      rcases secBase_dict_elim hbase with ⟨-, hnil⟩ | hsome
      · rw [hl] at hnil; cases hnil
      · rw [hl] at hsome
        show (pure (setKey m name (.map (q :: rest)))
            : Except String (List (String × Value))) = .ok m
        rw [setKey_self hsome]
        rfl

theorem resolveConfig_noEnv (home : String) (fm : List (String × Value)) :
    resolveConfig noEnv home fm = validateConfig home fm := by
  unfold resolveConfig
  simp only [applyClaude_noEnv, applyFlat_noEnv, applyNested_noEnv, ok_bind]

theorem expandVarsFuel_noEnv (fuel : Nat) (cs : List Char)
    (h : cs.length ≤ fuel) : expandVarsFuel noEnv fuel cs = cs := by
  induction fuel generalizing cs with
  | zero =>
    rw [Nat.le_zero] at h
    rw [List.length_eq_zero.mp h]
    rfl
  | succ fuel ih =>
    cases cs with
    | nil => rfl
    | cons c rest =>
      simp only [List.length_cons, Nat.succ_le_succ_iff] at h
      by_cases hc : c = '$'
      · by_cases hn : (rest.takeWhile isVarChar).isEmpty = true
        · rw [show expandVarsFuel noEnv (fuel + 1) (c :: rest)
              = c :: expandVarsFuel noEnv fuel rest from by
            rw [expandVarsFuel.eq_def]
            dsimp only
            rw [if_pos hc, if_pos hn]]
          rw [ih rest h]
        · rw [show expandVarsFuel noEnv (fuel + 1) (c :: rest)
              = c :: (rest.takeWhile isVarChar
                  ++ expandVarsFuel noEnv fuel (rest.dropWhile isVarChar)) from by
            rw [expandVarsFuel.eq_def]
            dsimp only
            rw [if_pos hc, if_neg hn]
            rfl]
          rw [ih (rest.dropWhile isVarChar)
            (Nat.le_trans (List.dropWhile_sublist _).length_le h)]
          rw [List.takeWhile_append_dropWhile]
      · rw [show expandVarsFuel noEnv (fuel + 1) (c :: rest)
            = c :: expandVarsFuel noEnv fuel rest from by
          rw [expandVarsFuel.eq_def]
          dsimp only
          rw [if_neg hc]]
        rw [ih rest h]

theorem expandUser_no_tilde {home str : String}
    (h : str.data.head? ≠ some '~') : expandUser home str = str := by
  unfold expandUser
  split
  · rename_i heq
    exact absurd (by rw [heq]; rfl) h
  · rename_i rest heq
    exact absurd (by rw [heq]; rfl) h
  · rfl

theorem expand_path_noEnv {home str : String}
    (h : str.data.head? ≠ some '~') : expand_path noEnv home str = str := by
  unfold expand_path expandVarsChars
  rw [expandVarsFuel_noEnv str.data.length str.data (Nat.le_refl _)]
  show expandUser home str = str
  exact expandUser_no_tilde h

theorem coerceOptPathList_consS (p : String) (ps : List String) :
    coerceOptPathList (.list (Value.s p :: ps.map .s)) = .ok (some (p :: ps)) := by
  have h := coerceOptPathList_mapS (p :: ps)
  simpa using h

/-- Reloading the saved mapping under an empty environment validates to the
`reloadedConfig` of the saved configuration. -/
theorem validate_saved (home : String) (cfg : Config) :
    validateConfig home (expandPathsInConfig noEnv home (saveConfigMap cfg))
      = .ok (reloadedConfig noEnv home cfg) := by
  cases hpd : cfg.projects_dirs with
  | none =>
    simp [saveConfigMap, hpd, expandPathsInConfig,
      expandEntry, lookupKey, setKey, validateConfig, getField, getSection,
      mapErrPrefix, mapErr, validateDisplayMap, validateNotifMap,
      coercePath, coerceInt, coerceStr, coerceBool, reloadedConfig,
      coerceOptInt_val, coerceOptStr_val, coerceTimeFormat_value,
      coerceDisplayMode_value, coerceStrList_mapS, coerceOptPathList_mapS,
      ok_bind, Except.bind, Except.pure]
  | some l =>
    cases l with
    | nil =>
      simp [saveConfigMap, hpd, expandPathsInConfig,
        expandEntry, lookupKey, setKey, validateConfig, getField, getSection,
        mapErrPrefix, mapErr, validateDisplayMap, validateNotifMap,
        coercePath, coerceInt, coerceStr, coerceBool, reloadedConfig,
        coerceOptInt_val, coerceOptStr_val, coerceTimeFormat_value,
        coerceDisplayMode_value, coerceStrList_mapS, coerceOptPathList_mapS,
        ok_bind, Except.bind, Except.pure]
    | cons p ps =>
      simp [saveConfigMap, hpd, expandPathsInConfig,
        expandEntry, lookupKey, setKey, validateConfig, getField, getSection,
        mapErrPrefix, mapErr, validateDisplayMap, validateNotifMap,
        coercePath, coerceInt, coerceStr, coerceBool, reloadedConfig,
        coerceOptInt_val, coerceOptStr_val, coerceTimeFormat_value,
        coerceDisplayMode_value, coerceStrList_mapS, coerceOptPathList_mapS,
        coerceOptPathList_consS, ok_bind, Except.bind, Except.pure]

/-- Saving then loading with no environment overrides succeeds and produces
exactly `reloadedConfig`. -/
theorem roundtrip_eval (home : String) (cfg : Config) :
    load_config noEnv home (mkFileInput (saveConfigMap cfg))
      = .ok (reloadedConfig noEnv home cfg) := by
  rw [show load_config noEnv home (mkFileInput (saveConfigMap cfg))
      = resolveConfig noEnv home
          (expandPathsInConfig noEnv home (saveConfigMap cfg)) from rfl,
    resolveConfig_noEnv]
  exact validate_saved home cfg

/-! ## Claim C7 -/

/-- Claim C7: saving a configuration and loading the written file (with no
environment overrides) reproduces every field included in the serialization
format, and the `projects_dirs` key is omitted from the written mapping
exactly when the multi-directory list is unset or empty.  The hypotheses
exclude a literal leading `~` in the two stored path strings, which
reloading would expand. -/
theorem claim_C7 (home : String) (cfg : Config)
    (h1 : cfg.projects_dir.data.head? ≠ some '~')
    (h2 : cfg.cache_dir.data.head? ≠ some '~') :
    (∃ cfg', load_config noEnv home (mkFileInput (saveConfigMap cfg)) = .ok cfg' ∧
      cfg'.projects_dir = cfg.projects_dir ∧
      cfg'.polling_interval = cfg.polling_interval ∧
      cfg'.timezone = cfg.timezone ∧
      cfg'.token_limit = cfg.token_limit ∧
      cfg'.cache_dir = cfg.cache_dir ∧
      cfg'.display.show_progress_bars = cfg.display.show_progress_bars ∧
      cfg'.display.show_active_sessions = cfg.display.show_active_sessions ∧
      cfg'.display.update_in_place = cfg.display.update_in_place ∧
      cfg'.display.refresh_interval = cfg.display.refresh_interval ∧
      cfg'.display.time_format = cfg.display.time_format ∧
      cfg'.display.project_name_prefixes = cfg.display.project_name_prefixes ∧
      cfg'.display.display_mode = cfg.display.display_mode ∧
      cfg'.display.show_pricing = cfg.display.show_pricing ∧
      cfg'.notifications = cfg.notifications ∧
      cfg'.projects_dirs = (match cfg.projects_dirs with
        | some (p :: ps) => some (p :: ps)
        | _ => none)) ∧
    (lookupKey (saveConfigMap cfg) "projects_dirs" = none ↔
      (cfg.projects_dirs = none ∨ cfg.projects_dirs = some [])) := by
  refine ⟨⟨reloadedConfig noEnv home cfg, roundtrip_eval home cfg,
    expand_path_noEnv h1, rfl, rfl, rfl, expand_path_noEnv h2,
    rfl, rfl, rfl, rfl, rfl, rfl, rfl, rfl, rfl, rfl⟩, ?_⟩
  cases hpd : cfg.projects_dirs with
  | none => simp [saveConfigMap, hpd, lookupKey]
  | some l =>
    cases l with
    | nil => simp [saveConfigMap, hpd, lookupKey]
    | cons p ps => simp [saveConfigMap, hpd, lookupKey]

theorem claim_C7_witness :
    (lookupKey (saveConfigMap
        { defaultConfig "/home/u" with projects_dirs := some ["/a"], token_limit := some 7 })
        "projects_dirs" = none ↔
      (({ defaultConfig "/home/u" with projects_dirs := some ["/a"], token_limit := some 7 } : Config).projects_dirs = none ∨
        ({ defaultConfig "/home/u" with projects_dirs := some ["/a"], token_limit := some 7 } : Config).projects_dirs = some [])) ∧
    ∃ cfg', load_config noEnv "/home/u"
        (mkFileInput (saveConfigMap
          { defaultConfig "/home/u" with projects_dirs := some ["/a"], token_limit := some 7 }))
        = .ok cfg' ∧
      cfg'.token_limit = some 7 ∧ cfg'.projects_dirs = some ["/a"] := by
  obtain ⟨⟨cfg', hload, hf1, hf2, hf3, hf4, hf5, hrest⟩, hiff⟩ :=
    claim_C7 "/home/u"
      { defaultConfig "/home/u" with projects_dirs := some ["/a"], token_limit := some 7 }
      (by decide) (by decide)
  exact ⟨hiff, cfg', hload, hf4, hrest.2.2.2.2.2.2.2.2.2⟩

/-! ## Claim C10 -/

/-- Claim C10: the serialization omits `disable_cache`,
`recent_activity_window_hours`, `display.show_tool_usage` and
`display.theme`, so reloading a saved configuration (with no environment
overrides) returns exactly these four fields to their schema defaults,
whatever their saved values were. -/
theorem claim_C10 (home : String) (cfg : Config) :
    ∃ cfg', load_config noEnv home (mkFileInput (saveConfigMap cfg)) = .ok cfg' ∧
      cfg'.disable_cache = false ∧
      cfg'.recent_activity_window_hours = 5 ∧
      cfg'.display.show_tool_usage = false ∧
      cfg'.display.theme = .defaultTheme ∧
      lookupKey (saveConfigMap cfg) "disable_cache" = none ∧
      lookupKey (saveConfigMap cfg) "recent_activity_window_hours" = none ∧
      fileSec (saveConfigMap cfg) "display" "show_tool_usage" = none ∧
      fileSec (saveConfigMap cfg) "display" "theme" = none := by
  refine ⟨reloadedConfig noEnv home cfg, roundtrip_eval home cfg,
    rfl, rfl, rfl, rfl, ?_, ?_, rfl, rfl⟩
  · cases hpd : cfg.projects_dirs with
    | none => simp [saveConfigMap, hpd, lookupKey]
    | some l =>
      cases l with
      | nil => simp [saveConfigMap, hpd, lookupKey]
      | cons p ps => simp [saveConfigMap, hpd, lookupKey]
  · cases hpd : cfg.projects_dirs with
    | none => simp [saveConfigMap, hpd, lookupKey]
    | some l =>
      cases l with
      | nil => simp [saveConfigMap, hpd, lookupKey]
      | cons p ps => simp [saveConfigMap, hpd, lookupKey]

/-! ## Path-expansion behaviour of the path-valued fields -/

theorem lookup_expandEntry_ne {env : String → Option String} {home : String}
    {m : List (String × Value)} {k k' : String} (h : k' ≠ k) :
    lookupKey (expandEntry env home m k') k = lookupKey m k := by
  unfold expandEntry
  cases hl : lookupKey m k' with
  | none => rfl
  | some v =>
    cases v with
    | s str => exact lookup_setKey_ne m _ h
    | i n => rfl
    | b bv => rfl
    | null => rfl
    | path p => rfl
    | list l => rfl
    | map l => rfl

/-- Claim C5, corrected: the code does not make path fields absolute or
alias-free.  What it does guarantee: `projects_dir` and `cache_dir` pass
through `expand_path` — substituting embedded `$NAME` references and a
leading `~` home alias — both when supplied by the mapped environment
override and when supplied as a string in the file mapping; `expand_path`
leaves relative paths relative, so an already relative, alias-free input
survives unchanged.  The elements of a `CLAUDE_CONFIG_DIR`-sourced
`projects_dirs` receive no expansion at all: they are stored verbatim
(trimmed, comma-split), tildes included.  The literal claim is refuted by
`claim_C5_counterexample`. -/
theorem claim_C5 (env env₂ : String → Option String) (home : String)
    (fileMap m : List (String × Value)) (cfg cfg₂ : Config)
    (s₁ s₂ cd raw : String)
    (h1 : envTruthy env "PAR_CC_USAGE_PROJECTS_DIR" = some s₁)
    (h2 : envTruthy env "PAR_CC_USAGE_CACHE_DIR" = some s₂)
    (hcd : envTruthy env "CLAUDE_CONFIG_DIR" = some cd)
    (hok : resolveConfig env home fileMap = .ok cfg)
    (hraw : lookupKey m "projects_dir" = some (.s raw))
    (hno : envTruthy env₂ "PAR_CC_USAGE_PROJECTS_DIR" = none)
    (hok₂ : load_config env₂ home (mkFileInput m) = .ok cfg₂) :
    cfg.projects_dir = expand_path env home s₁ ∧
    cfg.cache_dir = expand_path env home s₂ ∧
    cfg.projects_dirs = some (splitTrim cd) ∧
    cfg₂.projects_dir = expand_path env₂ home raw := by
  obtain ⟨m3, m4, hd, hn, hval⟩ := resolveConfig_ok_elim hok
  obtain ⟨hq1, -, -, -, -, hq6, -⟩ := validateConfig_ok_proj hval
  refine ⟨?_, ?_, resolve_claude_dirs hcd hok, ?_⟩
  · have ha : envParsed env home "PAR_CC_USAGE_PROJECTS_DIR" "projects_dir"
        = some (.path (expand_path env home s₁)) := by
      unfold envParsed
      rw [h1]
      show parseEnvValue env home "projects_dir" s₁ = _
      unfold parseEnvValue
      rw [if_neg (by decide), if_pos (by decide)]
    have hlk : lookupKey m4 "projects_dir"
        = some (.path (expand_path env home s₁)) := by
      rw [(applyNested_ok_lookup_ne (by decide) hn).trans
          (applyNested_ok_lookup_ne (by decide) hd),
        lookup_top_projects_dir, ha]
    have hc := getField_ok_some hlk hq1
    exact (Except.ok.inj hc).symm
  · have ha : envParsed env home "PAR_CC_USAGE_CACHE_DIR" "cache_dir"
        = some (.path (expand_path env home s₂)) := by
      unfold envParsed
      rw [h2]
      show parseEnvValue env home "cache_dir" s₂ = _
      unfold parseEnvValue
      rw [if_neg (by decide), if_pos (by decide)]
    have hlk : lookupKey m4 "cache_dir"
        = some (.path (expand_path env home s₂)) := by
      rw [(applyNested_ok_lookup_ne (by decide) hn).trans
          (applyNested_ok_lookup_ne (by decide) hd),
        lookup_top_cache_dir, ha]
    have hc := getField_ok_some hlk hq6
    exact (Except.ok.inj hc).symm
  · rw [show load_config env₂ home (mkFileInput m)
        = resolveConfig env₂ home (expandPathsInConfig env₂ home m) from rfl] at hok₂
    obtain ⟨n3, n4, hd₂, hn₂, hval₂⟩ := resolveConfig_ok_elim hok₂
    obtain ⟨hp1, -⟩ := validateConfig_ok_proj hval₂
    have hexp : lookupKey (expandPathsInConfig env₂ home m) "projects_dir"
        = some (.path (expand_path env₂ home raw)) := by
      unfold expandPathsInConfig
      rw [lookup_expandEntry_ne (by decide)]
      unfold expandEntry
      rw [hraw]
      exact lookup_setKey_self m _ _
    have hnp : envParsed env₂ home "PAR_CC_USAGE_PROJECTS_DIR" "projects_dir"
        = none := by
      unfold envParsed
      rw [hno]
      rfl
    have hlk : lookupKey n4 "projects_dir"
        = some (.path (expand_path env₂ home raw)) := by
      rw [(applyNested_ok_lookup_ne (by decide) hn₂).trans
          (applyNested_ok_lookup_ne (by decide) hd₂),
        lookup_top_projects_dir, hnp]
      show lookupKey (applyClaudeOverride env₂ (expandPathsInConfig env₂ home m))
          "projects_dir" = _
      rw [lookup_claude_ne (by decide), hexp]
    have hc := getField_ok_some hlk hp1
    exact (Except.ok.inj hc).symm

theorem claim_C5_witness :
    ({ defaultConfig "/home/u" with projects_dir := "/home/u/p", cache_dir := "/c", projects_dirs := some ["~/a", "/b"] } : Config).projects_dir = expand_path envC5 "/home/u" "~/p" ∧
    ({ defaultConfig "/home/u" with projects_dir := "/home/u/p", cache_dir := "/c", projects_dirs := some ["~/a", "/b"] } : Config).cache_dir = expand_path envC5 "/home/u" "/c" ∧
    ({ defaultConfig "/home/u" with projects_dir := "/home/u/p", cache_dir := "/c", projects_dirs := some ["~/a", "/b"] } : Config).projects_dirs = some (splitTrim " ~/a ,/b") ∧
    ({ defaultConfig "/home/u" with projects_dir := "rel/dir" } : Config).projects_dir = expand_path noEnv "/home/u" "rel/dir" :=
  claim_C5 envC5 noEnv "/home/u" [] [("projects_dir", Value.s "rel/dir")]
    { defaultConfig "/home/u" with projects_dir := "/home/u/p", cache_dir := "/c", projects_dirs := some ["~/a", "/b"] }
    { defaultConfig "/home/u" with projects_dir := "rel/dir" }
    "~/p" "/c" " ~/a ,/b" "rel/dir"
    (by decide) (by decide) (by decide) (by decide) rfl (by decide)
    (by decide)

/-- Counterexample to the literal claim C5: a relative `projects_dir`
written in the file survives resolution unchanged, and a
`CLAUDE_CONFIG_DIR` segment keeps its home alias `~` verbatim — neither
resolved path-valued field is an absolute, alias-free path. -/
theorem claim_C5_counterexample :
    load_config (fun v => if v = "CLAUDE_CONFIG_DIR" then some "~/a" else none)
        "/home/u" (mkFileInput [("projects_dir", Value.s "rel/dir")])
      = .ok { defaultConfig "/home/u" with projects_dir := "rel/dir", projects_dirs := some ["~/a"] } ∧
    cleanAbsPath "rel/dir" = false ∧ cleanAbsPath "~/a" = false :=
  ⟨by decide, by decide, by decide⟩
